import Mathlib

/-!
# Verification of the sequencer Engine coordinator

Shallow embedding of `src/apps/sequencer/engine/Engine.cpp` (the Engine
coordinator of a hardware step sequencer).  Machine integers are modelled as
`Nat`/`Int`; collaborator objects (Clock, GateOutput, CvOutput, MIDI ports,
track engines) are modelled as explicit state records, with call traces
(counters / logs) recording the method invocations the Engine performs on
them.  Floating point quantities (`dt`, bpm nudge, CV voltages) are never
arithmetically transformed by the coordinator itself, only moved around, so
CV values are modelled as `Int` and `dt` as a `Nat` stand-in.
-/

namespace Performer

/-- CONFIG_TRACK_COUNT from Config.h: number of tracks / physical outputs. -/
def CONFIG_TRACK_COUNT : Nat := 8

/-- CONFIG_PPQN from Config.h: internal tick resolution (pulses per quarter note). -/
def CONFIG_PPQN : Nat := 192

/-- Track::TrackMode from the model. -/
inductive TrackMode where
  | Note
  | Curve
  | MidiCv
  | Last
  deriving DecidableEq, Repr

/-- Clock::Mode. -/
inductive ClockMode where
  | Auto
  | Master
  | Slave
  deriving DecidableEq, Repr

/-- ClockSetup::Mode (model side, with the Last sentinel). -/
inductive ClockSetupMode where
  | Auto
  | Master
  | Slave
  | Last
  deriving DecidableEq, Repr

/-- ClockSetup::ClockInputMode. -/
inductive ClockInputMode where
  | Reset
  | Run
  | StartStop
  | Last
  deriving DecidableEq, Repr

/-- ClockSetup::ClockOutputMode. -/
inductive ClockOutputMode where
  | Reset
  | Run
  | Last
  deriving DecidableEq, Repr

/-- Clock source identifiers (ClockSourceExternal / ClockSourceMidi / ClockSourceUsbMidi). -/
inductive ClockSource where
  | External
  | Midi
  | UsbMidi
  deriving DecidableEq, Repr

/-- Slave-side entry points of the Clock that the Engine invokes (ISR context). -/
inductive SlaveCmd where
  | slaveStart (src : ClockSource)
  | slaveTick (src : ClockSource)
  | slaveReset (src : ClockSource)
  | slaveStop (src : ClockSource)
  | slaveContinue (src : ClockSource)
  | slaveHandleMidi (src : ClockSource)
  deriving DecidableEq, Repr

/-- Clock::Event (None is represented by an empty queue). -/
inductive ClockEvent where
  | Start
  | Stop
  | Continue
  | Reset
  deriving DecidableEq, Repr

/-- MidiPort selector of the Engine. -/
inductive MidiPort where
  | Midi
  | UsbMidi
  deriving DecidableEq, Repr

/-- MIDI message; the Engine only reads its channel before broadcasting. -/
structure MidiMessage where
  channel : Nat
  deriving DecidableEq, Repr

/-- Modelled from the spec: PlayState::TrackState.  Engine.cpp only consumes
this class (PlayState.h is not part of the provided sources): each track state
carries mute/fill/pattern, the requested mute/pattern values, and one request
bit per category (Immediate/Synced/Latched) for mute and pattern, matching
the request-bit masks used at Engine.cpp:359-365. -/
structure TrackState where
  mute : Bool
  fill : Bool
  pattern : Int
  requestedMute : Bool
  requestedPattern : Int
  immediateMuteRequest : Bool
  syncedMuteRequest : Bool
  latchedMuteRequest : Bool
  immediatePatternRequest : Bool
  syncedPatternRequest : Bool
  latchedPatternRequest : Bool
  deriving DecidableEq, Repr

instance : Inhabited TrackState :=
  ⟨{ mute := false, fill := false, pattern := 0, requestedMute := false,
     requestedPattern := 0, immediateMuteRequest := false, syncedMuteRequest := false,
     latchedMuteRequest := false, immediatePatternRequest := false,
     syncedPatternRequest := false, latchedPatternRequest := false }⟩

/-- Modelled from the spec: PlayState::SongState, consumed by Engine.cpp:388-459.
Holds current slot / repeat / requested slot / playing plus one request bit per
category for Play and Stop. -/
structure SongState where
  currentSlot : Int
  currentRepeat : Int
  requestedSlot : Int
  playing : Bool
  immediatePlayRequest : Bool
  syncedPlayRequest : Bool
  latchedPlayRequest : Bool
  immediateStopRequest : Bool
  syncedStopRequest : Bool
  latchedStopRequest : Bool
  deriving DecidableEq, Repr

instance : Inhabited SongState :=
  ⟨{ currentSlot := 0, currentRepeat := 0, requestedSlot := 0, playing := false,
     immediatePlayRequest := false, syncedPlayRequest := false, latchedPlayRequest := false,
     immediateStopRequest := false, syncedStopRequest := false, latchedStopRequest := false }⟩

/-- Song slot: a per-track pattern assignment plus a repeat count. -/
structure Slot where
  patterns : List Int
  repeats : Int
  deriving DecidableEq, Repr

instance : Inhabited Slot := ⟨{ patterns := [], repeats := 0 }⟩

/-- Slot::pattern(trackIndex). -/
def Slot.pattern (slot : Slot) (trackIndex : Nat) : Int :=
  slot.patterns.getD trackIndex 0

/-- Song arrangement: list of slots. -/
structure Song where
  slots : List Slot
  deriving DecidableEq, Repr

/-- Song::slotCount(). -/
def Song.slotCount (song : Song) : Int :=
  (song.slots.length : Int)

/-- Song::slot(i). -/
def Song.slot (song : Song) (i : Int) : Slot :=
  song.slots.getD i.toNat default

/-- Modelled from the spec: PlayState, the request container the Engine
consumes.  The aggregate flags correspond to hasImmediateRequests() /
hasSyncedRequests() / executeLatchedRequests() read at Engine.cpp:345-347; the
clear operations at Engine.cpp:422-428 reset them. -/
structure PlayState where
  trackStates : List TrackState
  songState : SongState
  hasImmediateRequests : Bool
  hasSyncedRequests : Bool
  executeLatchedRequests : Bool
  deriving DecidableEq, Repr

/-- Model track (only the fields Engine.cpp reads). -/
structure Track where
  trackMode : TrackMode
  linkTrack : Int
  deriving DecidableEq, Repr

instance : Inhabited Track := ⟨{ trackMode := TrackMode.Note, linkTrack := -1 }⟩

/-- ClockSetup (model side). -/
structure ClockSetup where
  mode : ClockSetupMode
  clockInputMode : ClockInputMode
  clockOutputMode : ClockOutputMode
  clockInputDivisor : Nat
  clockOutputDivisor : Nat
  clockOutputPulse : Nat
  midiRx : Bool
  usbRx : Bool
  midiTx : Bool
  usbTx : Bool
  dirty : Bool
  deriving DecidableEq, Repr

/-- Project (the parts of the model the Engine coordinator reads). -/
structure Project where
  bpm : Int
  syncMeasure : Nat
  swing : Int
  selectedTrackIndex : Nat
  tracks : List Track
  gateOutputTracks : List Nat
  cvOutputTracks : List Nat
  playState : PlayState
  song : Song
  clockSetup : ClockSetup

/-- Clock collaborator state: pending tick / event queues, status flags, and a
trace of the control calls the Engine makes on it. -/
structure Clock where
  tickQueue : List Nat
  eventQueue : List ClockEvent
  isRunningFlag : Bool
  isIdleFlag : Bool
  mode : ClockMode
  masterStopCalls : Nat
  setMasterBpmCalls : Nat
  slaveCmds : List SlaveCmd
  slaveConfigs : List (ClockSource × Nat × Bool)
  outputDivisor : Nat
  outputPulse : Nat
  outputStateClock : Bool
  outputStateReset : Bool
  outputStateRun : Bool

/-- Clock::masterStop() as observed by the Engine (Engine.cpp:51). -/
def Clock.masterStop (c : Clock) : Clock :=
  { c with masterStopCalls := c.masterStopCalls + 1 }

/-- Dio pins the Engine touches. -/
structure Dio where
  clockOutputPin : Bool
  resetOutputPin : Bool
  resetInputLevel : Bool
  deriving DecidableEq, Repr

/-- CvOutput collaborator: per-channel value plus a flush counter. -/
structure CvOutputState where
  channels : Nat → Int
  updateCalls : Nat

/-- TrackEngine slot contents: the settings the Engine pushes into it, the
outputs it draws from it, and call traces for reset/tick/update/receiveMidi. -/
structure TrackEngine where
  trackMode : TrackMode
  mute : Bool
  fill : Bool
  pattern : Int
  swing : Int
  resetCalls : Nat
  tickCalls : List Nat
  updateCalls : Nat
  receiveMidiCalls : Nat
  idleOutput : Bool
  idleGateOutputAt : Nat → Bool
  gateOutputAt : Nat → Bool
  idleCvOutputAt : Nat → Int
  cvOutputAt : Nat → Int

instance : Inhabited TrackEngine :=
  ⟨{ trackMode := TrackMode.Note, mute := false, fill := false, pattern := 0,
     swing := 0, resetCalls := 0, tickCalls := [], updateCalls := 0,
     receiveMidiCalls := 0, idleOutput := false,
     idleGateOutputAt := fun _ => false, gateOutputAt := fun _ => false,
     idleCvOutputAt := fun _ => 0, cvOutputAt := fun _ => 0 }⟩

/-- Engine state (Engine.h members the coordinator reads and writes, with the
model folded in as `project`). -/
structure Engine where
  project : Project
  tick : Nat
  lastSystemTicks : Nat
  running : Bool
  locked : Nat
  requestLock : Nat
  requestUnlock : Nat
  gateOutputOverride : Bool
  gateOutputOverrideValue : List Bool
  cvOutputOverride : Bool
  cvOutputOverrideValues : List Int
  nudgeTempoUpdates : Nat
  trackEngines : List TrackEngine
  clock : Clock
  dio : Dio
  gateOutput : List Bool
  cvOutput : CvOutputState
  cvInputUpdates : Nat
  routingUpdates : Nat
  routingMidiCalls : Nat
  midiQueue : List MidiMessage
  usbMidiQueue : List MidiMessage
  midiLearnCalls : Nat
  midiReceiveHandlerPresent : Bool
  midiReceiveHandlerCalls : Nat

/-! ## Play state arbitration (Engine.cpp:340-471) -/

/-- measureDivisor at Engine.cpp:350: `syncMeasure * CONFIG_PPQN * 4`. -/
def measureDivisor (p : Project) : Nat :=
  p.syncMeasure * CONFIG_PPQN * 4

/-- handleSyncedRequests at Engine.cpp:351. -/
def handleSyncedRequestsCond (tick M : Nat) : Bool :=
  (tick % M == 0) || (tick % M == M - 1)

/-- switchToNextSlot at Engine.cpp:352. -/
def switchToNextSlotCond (ticked : Bool) (tick M : Nat) : Bool :=
  ticked && (tick % M == M - 1)

/-- Whether a mute request fires, i.e. `trackState.hasRequests(muteRequests)`
with the mask built at Engine.cpp:359-361. -/
def muteRequestFires (hs hl : Bool) (ts : TrackState) : Bool :=
  ts.immediateMuteRequest || (hs && ts.syncedMuteRequest) || (hl && ts.latchedMuteRequest)

/-- Whether a pattern request fires, mask at Engine.cpp:363-365. -/
def patternRequestFires (hs hl : Bool) (ts : TrackState) : Bool :=
  ts.immediatePatternRequest || (hs && ts.syncedPatternRequest) || (hl && ts.latchedPatternRequest)

/-- trackState.clearRequests(muteRequests | patternRequests) at Engine.cpp:382:
immediate bits always in the mask, synced bits iff `hs`, latched bits iff `hl`. -/
def clearTrackRequests (hs hl : Bool) (ts : TrackState) : TrackState :=
  { ts with
    immediateMuteRequest := false
    immediatePatternRequest := false
    syncedMuteRequest := ts.syncedMuteRequest && !hs
    syncedPatternRequest := ts.syncedPatternRequest && !hs
    latchedMuteRequest := ts.latchedMuteRequest && !hl
    latchedPatternRequest := ts.latchedPatternRequest && !hl }

/-- Per-track body of the request loop, Engine.cpp:367-383. -/
def applyTrackRequests (hs hl : Bool) (ts : TrackState) : TrackState :=
  let ts1 := if muteRequestFires hs hl ts then { ts with mute := ts.requestedMute } else ts
  let ts2 := if patternRequestFires hs hl ts then { ts1 with pattern := ts1.requestedPattern } else ts1
  clearTrackRequests hs hl ts2

/-- Whether a song Play request fires, mask at Engine.cpp:389-391. -/
def playRequestFires (hs hl : Bool) (ss : SongState) : Bool :=
  ss.immediatePlayRequest || (hs && ss.syncedPlayRequest) || (hl && ss.latchedPlayRequest)

/-- Whether a song Stop request fires, mask at Engine.cpp:393-395. -/
def stopRequestFires (hs hl : Bool) (ss : SongState) : Bool :=
  ss.immediateStopRequest || (hs && ss.syncedStopRequest) || (hl && ss.latchedStopRequest)

/-- songState.clearRequests(playRequests | stopRequests) at Engine.cpp:416. -/
def clearSongRequests (hs hl : Bool) (ss : SongState) : SongState :=
  { ss with
    immediatePlayRequest := false
    immediateStopRequest := false
    syncedPlayRequest := ss.syncedPlayRequest && !hs
    syncedStopRequest := ss.syncedStopRequest && !hs
    latchedPlayRequest := ss.latchedPlayRequest && !hl
    latchedStopRequest := ss.latchedStopRequest && !hl }

/-- The loop at Engine.cpp:401-403 (and 454-455): write `slot.pattern(i)` into
every track state, `n` being the index of the first element of the list. -/
def slotApplyPatterns (slot : Slot) : Nat → List TrackState → List TrackState
  | _, [] => []
  | n, ts :: rest => { ts with pattern := slot.pattern n } :: slotApplyPatterns slot (n + 1) rest

/-- trackEngine->reset() (trace-recorded). -/
def resetEngine (e : TrackEngine) : TrackEngine :=
  { e with resetCalls := e.resetCalls + 1 }

/-- One step of the push loop at Engine.cpp:462-469: setMute / setFill /
setPattern from the track state. -/
def pushTrackState (ts : TrackState) (e : TrackEngine) : TrackEngine :=
  { e with mute := ts.mute, fill := ts.fill, pattern := ts.pattern }

/-- The push loop at Engine.cpp:461-470. -/
def pushAll : List TrackState → List TrackEngine → List TrackEngine
  | _, [] => []
  | [], es => es
  | ts :: tss, e :: es => pushTrackState ts e :: pushAll tss es

/-- Song slot advance, Engine.cpp:438-449: either move to the next repeat of
the current slot, or advance to the next slot (wrapping) and reset the repeat. -/
def slotAdvance (song : Song) (ss : SongState) : SongState :=
  if ss.currentRepeat + 1 < (song.slot ss.currentSlot).repeats then
    { ss with currentRepeat := ss.currentRepeat + 1 }
  else
    { ss with
      currentRepeat := 0
      currentSlot := if ss.currentSlot + 1 < song.slotCount then ss.currentSlot + 1 else 0 }

/-- Engine::updatePlayState (Engine.cpp:340-471). -/
def updatePlayState (ticked : Bool) (s : Engine) : Engine :=
  let project := s.project
  let playState := project.playState
  let song := project.song
  let hl := playState.executeLatchedRequests
  let hasRequests := playState.hasImmediateRequests || playState.hasSyncedRequests || hl
  let M := measureDivisor project
  let hs := handleSyncedRequestsCond s.tick M
  let stns0 := switchToNextSlotCond ticked s.tick M
  -- mute & pattern requests, Engine.cpp:356-384
  let tss1 := if hasRequests then playState.trackStates.map (applyTrackRequests hs hl)
              else playState.trackStates
  let changedPatterns := hasRequests && playState.trackStates.any (patternRequestFires hs hl)
  -- song requests, Engine.cpp:388-417
  let ss0 := playState.songState
  let playValid := hasRequests && playRequestFires hs hl ss0 &&
    decide (0 ≤ ss0.requestedSlot) && decide (ss0.requestedSlot < song.slotCount)
  let tss2 := if playValid then slotApplyPatterns (song.slot ss0.requestedSlot) 0 tss1 else tss1
  let ss2 := if playValid then
      { ss0 with currentSlot := ss0.requestedSlot, currentRepeat := 0, playing := true }
    else ss0
  let stns := if playValid then false else stns0
  let ss3 := if hasRequests && (changedPatterns || stopRequestFires hs hl ss2) then
      { ss2 with playing := false }
    else ss2
  let ss4 := if hasRequests then clearSongRequests hs hl ss3 else ss3
  -- pending request buckets, Engine.cpp:421-429
  let hasImm := if hasRequests then false else playState.hasImmediateRequests
  let hasSync := if hasRequests then playState.hasSyncedRequests && !hs
                 else playState.hasSyncedRequests
  let execLatch := if hasRequests then hl && !hl else hl  -- cleared iff hl was set
  -- song slot change, Engine.cpp:433-459
  let advance := ss4.playing && stns
  let ss5 := if advance then slotAdvance song ss4 else ss4
  let tss3 := if advance then slotApplyPatterns (song.slot ss5.currentSlot) 0 tss2 else tss2
  let engines1 := if advance then s.trackEngines.map resetEngine else s.trackEngines
  -- push to track engines, Engine.cpp:461-470
  let engines2 := if hasRequests || stns then pushAll tss3 engines1 else engines1
  { s with
    project := { project with
      playState := { trackStates := tss3, songState := ss5,
                     hasImmediateRequests := hasImm, hasSyncedRequests := hasSync,
                     executeLatchedRequests := execLatch } }
    trackEngines := engines2 }

/-! ## Track output wiring (Engine.cpp:298-332) and overrides (Engine.cpp:473-483) -/

/-- One recorded gate/CV draw: the source track the value was taken from, the
sub-index passed to that track's engine, and whether the idle branch was used. -/
structure Draw where
  source : Nat
  subIndex : Nat
  usedIdle : Bool
  deriving DecidableEq, Repr

instance : Inhabited Draw := ⟨{ source := 0, subIndex := 0, usedIdle := false }⟩

/-- Result of one output pass: the updated engines (idle clears), final
gate/CV output state, and the draw logs for both output kinds. -/
structure OutputsResult where
  engines : List TrackEngine
  gates : List Bool
  cv : Nat → Int
  gateDraws : List Draw
  cvDraws : List Draw

/-- Bump a per-track counter (trackGateIndex[t]++ / trackCvIndex[t]++). -/
def bump (f : Nat → Nat) (t : Nat) : Nat → Nat :=
  fun x => if x = t then f x + 1 else f x

/-- trackEngine->clearIdleOutput() on slot `i` (Engine.cpp:313).  Modelled from
the spec: clearing the idle output makes `idleOutput()` report false, so the
track no longer presents an idle preview. -/
def clearIdleAt : List TrackEngine → Nat → List TrackEngine
  | [], _ => []
  | e :: rest, 0 => { e with idleOutput := false } :: rest
  | e :: rest, n + 1 => e :: clearIdleAt rest n

/-- Loop body chain of Engine::updateTrackOutputs (Engine.cpp:311-331),
recursing over the remaining physical output indices and threading engines,
output state and the per-source sub-index counters. -/
def outputsGo (isIdle gateOv cvOv : Bool) (selected : Nat) (gateTracks cvTracks : List Nat) :
    List Nat → List TrackEngine → List Bool → (Nat → Int) → (Nat → Nat) → (Nat → Nat) →
    OutputsResult
  | [], engines, gates, cv, _, _ =>
    { engines := engines, gates := gates, cv := cv, gateDraws := [], cvDraws := [] }
  | idx :: rest, engines, gates, cv, gcnt, ccnt =>
    -- Engine.cpp:312-314: clear idle output of every non-selected track
    let engines1 := if idx = selected then engines else clearIdleAt engines idx
    -- Engine.cpp:315-322: gate draw unless overridden
    let gsrc := gateTracks.getD idx 0
    let gdraw : Option (Bool × Draw) :=
      if gateOv then none
      else
        let e := engines1.getD gsrc default
        let k := gcnt gsrc
        let useIdle := isIdle && e.idleOutput
        some ((if useIdle then e.idleGateOutputAt k else e.gateOutputAt k),
              { source := gsrc, subIndex := k, usedIdle := useIdle })
    let gates1 := match gdraw with
      | none => gates
      | some (v, _) => gates.set idx v
    let gcnt1 := match gdraw with
      | none => gcnt
      | some _ => bump gcnt gsrc
    -- Engine.cpp:323-330: CV draw unless overridden
    let csrc := cvTracks.getD idx 0
    let cdraw : Option (Int × Draw) :=
      if cvOv then none
      else
        let e := engines1.getD csrc default
        let k := ccnt csrc
        let useIdle := isIdle && e.idleOutput
        some ((if useIdle then e.idleCvOutputAt k else e.cvOutputAt k),
              { source := csrc, subIndex := k, usedIdle := useIdle })
    let cv1 := match cdraw with
      | none => cv
      | some (v, _) => fun j => if j = idx then v else cv j
    let ccnt1 := match cdraw with
      | none => ccnt
      | some _ => bump ccnt csrc
    let r := outputsGo isIdle gateOv cvOv selected gateTracks cvTracks rest engines1 gates1 cv1 gcnt1 ccnt1
    { r with
      gateDraws := (gdraw.map Prod.snd).toList ++ r.gateDraws
      cvDraws := (cdraw.map Prod.snd).toList ++ r.cvDraws }

/-- Engine::updateTrackOutputs (Engine.cpp:298-332); also yields the draw logs. -/
def updateTrackOutputs (s : Engine) : Engine × List Draw × List Draw :=
  let r := outputsGo s.clock.isIdleFlag s.gateOutputOverride s.cvOutputOverride
    s.project.selectedTrackIndex s.project.gateOutputTracks s.project.cvOutputTracks
    (List.range' 0 CONFIG_TRACK_COUNT) s.trackEngines s.gateOutput s.cvOutput.channels
    (fun _ => 0) (fun _ => 0)
  ({ s with
      trackEngines := r.engines
      gateOutput := r.gates
      cvOutput := { s.cvOutput with channels := r.cv } },
   r.gateDraws, r.cvDraws)

/-- The state part of updateTrackOutputs, as invoked from Engine::update. -/
def applyTrackOutputs (s : Engine) : Engine :=
  (updateTrackOutputs s).1

/-- Loop of Engine.cpp:479-481: write each override value to its CV channel. -/
def applyCvOverrideGo : Nat → (Nat → Int) → List Int → (Nat → Int)
  | _, ch, [] => ch
  | i, ch, v :: rest => applyCvOverrideGo (i + 1) (fun j => if j = i then v else ch j) rest

/-- Engine::updateOverrides (Engine.cpp:473-483). -/
def updateOverrides (s : Engine) : Engine :=
  let gates := if s.gateOutputOverride then s.gateOutputOverrideValue else s.gateOutput
  let channels := if s.cvOutputOverride then
      applyCvOverrideGo 0 s.cvOutput.channels s.cvOutputOverrideValues
    else s.cvOutput.channels
  { s with gateOutput := gates, cvOutput := { s.cvOutput with channels := channels } }

/-- Number of draws in `l` taken from source track `t`. -/
def countSrc (t : Nat) (l : List Draw) : Nat :=
  l.countP (fun d => d.source == t)

/-- Each draw's sub-index equals the per-source counter value at the time of
the draw: the base counter for its source plus the number of earlier draws
from the same source. -/
def drawsOk (cnt : Nat → Nat) (l : List Draw) : Prop :=
  ∀ (k : Nat) (d : Draw), l[k]? = some d →
    d.subIndex = cnt d.source + countSrc d.source (l.take k)

/-! ## Track engine lifecycle (Engine.cpp:256-296) -/

/-- Construction of a fresh track engine variant for the given mode
(Engine.cpp:267-275); collaborator internals start from the defaults. -/
def newTrackEngine (mode : TrackMode) : TrackEngine :=
  { (default : TrackEngine) with trackMode := mode }

/-- Per-track body of Engine::updateTrackSetups (Engine.cpp:258-286), total
version used on states where every slot holds an engine. -/
def setupTrack (swing : Int) (track : Track) (ts : TrackState) (e : TrackEngine) : TrackEngine :=
  let e1 :=
    if e.trackMode ≠ track.trackMode then
      let e' := match track.trackMode with
        | TrackMode.Note => newTrackEngine TrackMode.Note
        | TrackMode.Curve => newTrackEngine TrackMode.Curve
        | TrackMode.MidiCv => newTrackEngine TrackMode.MidiCv
        | TrackMode.Last => e
      { e' with mute := ts.mute, fill := ts.fill, pattern := ts.pattern }
    else e
  { e1 with swing := swing }

/-- The loop of Engine::updateTrackSetups over all tracks (total version). -/
def setupAll (swing : Int) : List Track → List TrackState → List TrackEngine → List TrackEngine
  | _, _, [] => []
  | [], _, es => es
  | _ :: _, [], es => es
  | t :: tr, ts :: tss, e :: es => setupTrack swing t ts e :: setupAll swing tr tss es

/-- Engine::updateTrackSetups (Engine.cpp:256-288), on all-slots-present states. -/
def updateTrackSetups (s : Engine) : Engine :=
  { s with trackEngines :=
      setupAll s.project.swing s.project.tracks s.project.playState.trackStates s.trackEngines }

/-- Per-slot body of Engine::updateTrackSetups with the slot modelled as an
`Option TrackEngine` (`none` = null pointer, as after `_trackEngines.fill(nullptr)`).
Returns `none` when the code would dereference a null engine pointer: after the
reconstruction switch the code unconditionally calls `trackEngine->setMute(...)`
(Engine.cpp:281) and `_trackEngines[trackIndex]->setSwing(...)` (Engine.cpp:286),
and the `TrackMode::Last` case of the switch leaves the slot untouched. -/
def setupSlot (swing : Int) (track : Track) (ts : TrackState) (slot : Option TrackEngine) :
    Option TrackEngine :=
  let needs := match slot with
    | none => true
    | some e => decide (e.trackMode ≠ track.trackMode)
  let slot2 := if needs then
      match track.trackMode with
      | TrackMode.Note => some (newTrackEngine TrackMode.Note)
      | TrackMode.Curve => some (newTrackEngine TrackMode.Curve)
      | TrackMode.MidiCv => some (newTrackEngine TrackMode.MidiCv)
      | TrackMode.Last => slot
    else slot
  match slot2 with
  | none => none
  | some e =>
    let e1 := if needs then { e with mute := ts.mute, fill := ts.fill, pattern := ts.pattern } else e
    some { e1 with swing := swing }

/-- The loop of Engine::updateTrackSetups over nullable slots; `none` overall
signals the null dereference described at `setupSlot`. -/
def updateTrackSetupsSlots (swing : Int) :
    List Track → List TrackState → List (Option TrackEngine) → Option (List (Option TrackEngine))
  | _, _, [] => some []
  | [], _, sls => some sls
  | _ :: _, [], sls => some sls
  | t :: tr, ts :: tss, sl :: sls =>
    match setupSlot swing t ts sl with
    | none => none
    | some e =>
      match updateTrackSetupsSlots swing tr tss sls with
      | none => none
      | some rest => some (some e :: rest)

/-! ## Clock input handlers installed by Engine::initClock (Engine.cpp:521-586) -/

/-- The clock-input GPIO handler installed at Engine.cpp:527-537, as the list
of Clock slave calls it issues (in order) for one edge with level `value`. -/
def clockInputHandler (mode : ClockInputMode) (clockRunning resetLevel value : Bool) :
    List SlaveCmd :=
  (if mode = ClockInputMode.Reset ∧ clockRunning = false ∧ resetLevel = false then
    [SlaveCmd.slaveStart ClockSource.External]
  else []) ++
  (if value then [SlaveCmd.slaveTick ClockSource.External] else [])

/-- The reset-input GPIO handler installed at Engine.cpp:540-568. -/
def resetInputHandler (mode : ClockInputMode) (value : Bool) : List SlaveCmd :=
  match mode with
  | ClockInputMode.Reset =>
    if value then [SlaveCmd.slaveReset ClockSource.External]
    else [SlaveCmd.slaveStart ClockSource.External]
  | ClockInputMode.Run =>
    if value then [SlaveCmd.slaveContinue ClockSource.External]
    else [SlaveCmd.slaveStop ClockSource.External]
  | ClockInputMode.StartStop =>
    if value then [SlaveCmd.slaveStart ClockSource.External]
    else [SlaveCmd.slaveStop ClockSource.External, SlaveCmd.slaveReset ClockSource.External]
  | ClockInputMode.Last => []

/-! ## Clock setup reconciliation (Engine.cpp:588-652) -/

/-- Engine::onClockOutput (Engine.cpp:231-243). -/
def onClockOutputApply (s : Engine) : Engine :=
  let dio1 := { s.dio with clockOutputPin := s.clock.outputStateClock }
  let dio2 := match s.project.clockSetup.clockOutputMode with
    | ClockOutputMode.Reset => { dio1 with resetOutputPin := s.clock.outputStateReset }
    | ClockOutputMode.Run => { dio1 with resetOutputPin := s.clock.outputStateRun }
    | ClockOutputMode.Last => dio1
  { s with dio := dio2 }

/-- The Clock reconfiguration part of Engine::updateClockSetup
(Engine.cpp:595-646): mode, slave divisors, slave-state sync from the current
reset-input level, output configuration. -/
def clockSetupApply (cs : ClockSetup) (resetInput : Bool) (c : Clock) : Clock :=
  let c1 := match cs.mode with
    | ClockSetupMode.Auto => { c with mode := ClockMode.Auto }
    | ClockSetupMode.Master => { c with mode := ClockMode.Master }
    | ClockSetupMode.Slave => { c with mode := ClockMode.Slave }
    | ClockSetupMode.Last => c
  let c2 := { c1 with slaveConfigs := c1.slaveConfigs ++
      [(ClockSource.External, cs.clockInputDivisor, true),
       (ClockSource.Midi, CONFIG_PPQN / 24, cs.midiRx),
       (ClockSource.UsbMidi, CONFIG_PPQN / 24, cs.usbRx)] }
  let running := c2.isRunningFlag
  let c3 := match cs.clockInputMode with
    | ClockInputMode.Reset =>
      if resetInput && running then
        { c2 with slaveCmds := c2.slaveCmds ++ [SlaveCmd.slaveReset ClockSource.External] }
      else if !resetInput && !running then
        { c2 with slaveCmds := c2.slaveCmds ++ [SlaveCmd.slaveStart ClockSource.External] }
      else c2
    | ClockInputMode.Run =>
      if resetInput && !running then
        { c2 with slaveCmds := c2.slaveCmds ++ [SlaveCmd.slaveContinue ClockSource.External] }
      else if !resetInput && running then
        { c2 with slaveCmds := c2.slaveCmds ++ [SlaveCmd.slaveStop ClockSource.External] }
      else c2
    | ClockInputMode.StartStop =>
      if resetInput && !running then
        { c2 with slaveCmds := c2.slaveCmds ++ [SlaveCmd.slaveStart ClockSource.External] }
      else if !resetInput && running then
        { c2 with slaveCmds := c2.slaveCmds ++ [SlaveCmd.slaveReset ClockSource.External] }
      else c2
    | ClockInputMode.Last => c2
  { c3 with outputDivisor := cs.clockOutputDivisor, outputPulse := cs.clockOutputPulse }

/-- Engine::updateClockSetup (Engine.cpp:588-652). -/
def updateClockSetup (s : Engine) : Engine :=
  let cs := s.project.clockSetup
  if cs.dirty = false then s
  else
    let s1 := onClockOutputApply
      { s with clock := clockSetupApply cs s.dio.resetInputLevel s.clock }
    { s1 with project := { s1.project with clockSetup := { cs with dirty := false } } }

/-! ## The update loop (Engine.cpp:44-148) -/

/-- One transport event from the Clock event queue (Engine.cpp:76-97). -/
def processEvent (s : Engine) (e : ClockEvent) : Engine :=
  match e with
  | ClockEvent.Start =>
    { s with running := true, trackEngines := s.trackEngines.map resetEngine }
  | ClockEvent.Stop => { s with running := false }
  | ClockEvent.Continue => { s with running := true }
  | ClockEvent.Reset =>
    { s with running := false, trackEngines := s.trackEngines.map resetEngine }

/-- Drain the Clock event queue (the `while checkEvent` loop, Engine.cpp:76-97). -/
def processClockEvents (s : Engine) : Engine :=
  let s1 := s.clock.eventQueue.foldl processEvent s
  { s1 with clock := { s1.clock with eventQueue := [] } }

/-- Engine::receiveMidi(port, message) (Engine.cpp:507-519): MIDI-learn,
routing, optional host handler, then broadcast to every track engine. -/
def receiveMidiMessage (s : Engine) (_msg : MidiMessage) : Engine :=
  { s with
    midiLearnCalls := s.midiLearnCalls + 1
    routingMidiCalls := s.routingMidiCalls + 1
    midiReceiveHandlerCalls :=
      s.midiReceiveHandlerCalls + (if s.midiReceiveHandlerPresent then 1 else 0)
    trackEngines := s.trackEngines.map fun e =>
      { e with receiveMidiCalls := e.receiveMidiCalls + 1 } }

/-- Engine::receiveMidi() (Engine.cpp:497-505): serial MIDI first, then USB. -/
def receiveMidiAll (s : Engine) : Engine :=
  let s1 := s.midiQueue.foldl receiveMidiMessage s
  let s2 := s1.usbMidiQueue.foldl receiveMidiMessage s1
  { s2 with midiQueue := [], usbMidiQueue := [] }

/-- Engine.cpp:101-103: advance the tempo nudge and push the master BPM. -/
def updateTempo (s : Engine) : Engine :=
  { s with
    nudgeTempoUpdates := s.nudgeTempoUpdates + 1
    clock := { s.clock with setMasterBpmCalls := s.clock.setMasterBpmCalls + 1 } }

/-- Engine.cpp:115: _cvInput.update(). -/
def updateCvInput (s : Engine) : Engine :=
  { s with cvInputUpdates := s.cvInputUpdates + 1 }

/-- Engine.cpp:118: _routingEngine.update(). -/
def updateRouting (s : Engine) : Engine :=
  { s with routingUpdates := s.routingUpdates + 1 }

/-- One iteration of the tick loop (Engine.cpp:122-134). -/
def tickStep (s : Engine) (t : Nat) : Engine :=
  let s1 := { s with tick := t }
  let s2 := updatePlayState true s1
  let s3 := { s2 with trackEngines := s2.trackEngines.map fun e =>
      { e with tickCalls := e.tickCalls ++ [t] } }
  applyTrackOutputs s3

/-- The tick loop plus the trailing `if (updateOutputs)` pass (Engine.cpp:120-138). -/
def tickLoopPhase (s : Engine) : Engine :=
  let q := s.clock.tickQueue
  let s1 := q.foldl tickStep s
  let s2 := { s1 with clock := { s1.clock with tickQueue := [] } }
  if q.isEmpty then applyTrackOutputs s2 else s2

/-- Engine.cpp:140-142: trackEngine->update(dt) for every track. -/
def enginesDtUpdate (_dt : Nat) (s : Engine) : Engine :=
  { s with trackEngines := s.trackEngines.map fun e =>
      { e with updateCalls := e.updateCalls + 1 } }

/-- _cvOutput.update() (Engine.cpp:71 and 147). -/
def cvOutputUpdatePhase (s : Engine) : Engine :=
  { s with cvOutput := { s.cvOutput with updateCalls := s.cvOutput.updateCalls + 1 } }

/-- The locked branch of Engine::update (Engine.cpp:60-73): drain the Clock
tick queue and both MIDI queues, apply overrides, flush CvOutput, return. -/
def lockedCycle (s : Engine) : Engine :=
  let s1 := { s with clock := { s.clock with tickQueue := [] } }
  let s2 := { s1 with midiQueue := [], usbMidiQueue := [] }
  cvOutputUpdatePhase (updateOverrides s2)

/-- The unlocked remainder of Engine::update up to (excluding) the overrides
and the CvOutput flush (Engine.cpp:75-142), in the phase order of the code. -/
def unlockedBody (dt : Nat) (s : Engine) : Engine :=
  enginesDtUpdate dt (tickLoopPhase (updateRouting (updateCvInput (updatePlayState false
    (updateTrackSetups (updateClockSetup (updateTempo (receiveMidiAll
      (processClockEvents s)))))))))

/-- The unlocked branch of Engine::update (Engine.cpp:75-148). -/
def unlockedCycle (dt : Nat) (s : Engine) : Engine :=
  cvOutputUpdatePhase (updateOverrides (unlockedBody dt s))

/-- The lock transition at the top of Engine::update (Engine.cpp:49-58): a
pending lock request master-stops the Clock and sets locked; a pending unlock
request clears locked. -/
def lockTransition (s : Engine) : Engine :=
  let s1 := if s.requestLock ≠ 0 then
      { s with clock := s.clock.masterStop, requestLock := 0, locked := 1 }
    else s
  if s1.requestUnlock ≠ 0 then { s1 with requestUnlock := 0, locked := 0 } else s1

/-- Engine::update (Engine.cpp:44-148); `systemTicks` is the os::ticks() sample. -/
def update (systemTicks : Nat) (s : Engine) : Engine :=
  let dt := systemTicks - s.lastSystemTicks
  let s2 := lockTransition { s with lastSystemTicks := systemTicks }
  if s2.locked ≠ 0 then lockedCycle s2 else unlockedCycle dt s2

/-- The Engine fields that no phase of the update cycle (after the lock
transition) modifies: lock state, request flags, the Clock's masterStop count
and the four override fields. -/
def stableFields (s : Engine) :
    Nat × Nat × Nat × Nat × Bool × List Bool × Bool × List Int :=
  (s.locked, s.requestLock, s.requestUnlock, s.clock.masterStopCalls,
   s.gateOutputOverride, s.gateOutputOverrideValue, s.cvOutputOverride,
   s.cvOutputOverrideValues)

/-! ## Concrete states used to evaluate the definitions -/

/-- A quiescent Clock. -/
def baseClock : Clock :=
  { tickQueue := [], eventQueue := [], isRunningFlag := false, isIdleFlag := false,
    mode := ClockMode.Auto, masterStopCalls := 0, setMasterBpmCalls := 0,
    slaveCmds := [], slaveConfigs := [], outputDivisor := 1, outputPulse := 1,
    outputStateClock := false, outputStateReset := false, outputStateRun := false }

/-- A clean ClockSetup (not dirty). -/
def baseClockSetup : ClockSetup :=
  { mode := ClockSetupMode.Auto, clockInputMode := ClockInputMode.Reset,
    clockOutputMode := ClockOutputMode.Reset, clockInputDivisor := 1,
    clockOutputDivisor := 12, clockOutputPulse := 1,
    midiRx := false, usbRx := false, midiTx := false, usbTx := false, dirty := false }

/-- A play state with no pending requests. -/
def basePlayState : PlayState :=
  { trackStates := List.replicate CONFIG_TRACK_COUNT default, songState := default,
    hasImmediateRequests := false, hasSyncedRequests := false,
    executeLatchedRequests := false }

/-- A project with 8 Note tracks, identity output routing, empty song,
`syncMeasure = 1` (so the measure divisor is 768). -/
def baseProject : Project :=
  { bpm := 120, syncMeasure := 1, swing := 0, selectedTrackIndex := 0,
    tracks := List.replicate CONFIG_TRACK_COUNT default,
    gateOutputTracks := [0, 1, 2, 3, 4, 5, 6, 7],
    cvOutputTracks := [0, 1, 2, 3, 4, 5, 6, 7],
    playState := basePlayState, song := { slots := [] }, clockSetup := baseClockSetup }

/-- A freshly initialised, unlocked, idle engine. -/
def baseEngine : Engine :=
  { project := baseProject, tick := 0, lastSystemTicks := 0, running := false,
    locked := 0, requestLock := 0, requestUnlock := 0,
    gateOutputOverride := false, gateOutputOverrideValue := List.replicate CONFIG_TRACK_COUNT false,
    cvOutputOverride := false, cvOutputOverrideValues := List.replicate CONFIG_TRACK_COUNT 0,
    nudgeTempoUpdates := 0, trackEngines := List.replicate CONFIG_TRACK_COUNT default,
    clock := baseClock, dio := { clockOutputPin := false, resetOutputPin := false, resetInputLevel := false },
    gateOutput := List.replicate CONFIG_TRACK_COUNT false,
    cvOutput := { channels := fun _ => 0, updateCalls := 0 },
    cvInputUpdates := 0, routingUpdates := 0, routingMidiCalls := 0,
    midiQueue := [], usbMidiQueue := [], midiLearnCalls := 0,
    midiReceiveHandlerPresent := false, midiReceiveHandlerCalls := 0 }

/-- Song playing on slot 0 of a two-slot song whose slot 0 wants 2 repeats;
the tick is one before the measure boundary (767 with `M = 768`). -/
def exRepeatEngine : Engine :=
  { baseEngine with
    tick := 767
    project := { baseProject with
      song := { slots := [{ patterns := [3, 3, 3, 3, 3, 3, 3, 3], repeats := 2 },
                          { patterns := [5, 5, 5, 5, 5, 5, 5, 5], repeats := 1 }] }
      playState := { basePlayState with songState := { (default : SongState) with playing := true } } } }

/-- Song playing on slot 0 of a two-slot song, each slot with 1 repeat;
the tick is one before the measure boundary. -/
def exWrapEngine : Engine :=
  { baseEngine with
    tick := 767
    project := { baseProject with
      song := { slots := [{ patterns := [3, 3, 3, 3, 3, 3, 3, 3], repeats := 1 },
                          { patterns := [5, 5, 5, 5, 5, 5, 5, 5], repeats := 1 }] }
      playState := { basePlayState with songState := { (default : SongState) with playing := true } } } }

/-- An immediate song Play request for slot 5 of a two-slot song (out of range). -/
def exStaleSlotEngine : Engine :=
  { baseEngine with
    project := { baseProject with
      song := { slots := [{ patterns := [1, 1, 1, 1, 1, 1, 1, 1], repeats := 1 },
                          { patterns := [2, 2, 2, 2, 2, 2, 2, 2], repeats := 1 }] }
      playState := { basePlayState with
        hasImmediateRequests := true
        songState := { (default : SongState) with
          currentSlot := 1, currentRepeat := 0, requestedSlot := 5, playing := true,
          immediatePlayRequest := true } } } }

/-- A locked engine with pending work everywhere: queued ticks, queued MIDI,
an ImmediateMuteRequest on track 0, and an active gate override. -/
def exLockedEngine : Engine :=
  { baseEngine with
    locked := 1
    gateOutputOverride := true
    gateOutputOverrideValue := [true, false, true, false, true, false, true, false]
    clock := { baseClock with tickQueue := [10, 11, 12], eventQueue := [ClockEvent.Start] }
    midiQueue := [{ channel := 1 }]
    usbMidiQueue := [{ channel := 2 }]
    project := { baseProject with
      playState := { basePlayState with
        hasImmediateRequests := true
        trackStates :=
          { (default : TrackState) with immediateMuteRequest := true, requestedMute := true } ::
          List.replicate (CONFIG_TRACK_COUNT - 1) default } } }

/-- An unlocked engine with both overrides active. -/
def exOverrideEngine : Engine :=
  { baseEngine with
    gateOutputOverride := true
    gateOutputOverrideValue := [true, true, false, false, true, true, false, false]
    cvOutputOverride := true
    cvOutputOverrideValues := [10, 20, 30, 40, 50, 60, 70, 80]
    trackEngines := List.replicate CONFIG_TRACK_COUNT
      { (default : TrackEngine) with gateOutputAt := fun _ => true, cvOutputAt := fun _ => 7 } }

/-- Physical outputs 0 and 1 both draw gates and CVs from track 1. -/
def exSharedSourceEngine : Engine :=
  { baseEngine with
    project := { baseProject with
      gateOutputTracks := [1, 1, 0, 0, 0, 0, 0, 0]
      cvOutputTracks := [1, 1, 0, 0, 0, 0, 0, 0] } }

/-- The clock is idle, track 0 is selected, but physical output 0 draws from
the non-selected track 1 whose engine advertises an idle output. -/
def exIdleLeakEngine : Engine :=
  { baseEngine with
    clock := { baseClock with isIdleFlag := true }
    project := { baseProject with
      selectedTrackIndex := 0
      gateOutputTracks := [1, 0, 0, 0, 0, 0, 0, 0]
      cvOutputTracks := [1, 0, 0, 0, 0, 0, 0, 0] }
    trackEngines :=
      (default : TrackEngine) ::
      { (default : TrackEngine) with idleOutput := true, idleGateOutputAt := fun _ => true } ::
      List.replicate (CONFIG_TRACK_COUNT - 2) default }

/-- The clock is idle and track 5 is selected; output 0 draws from the
non-selected track 0 whose engine advertises an idle output. -/
def exIdleClearedEngine : Engine :=
  { baseEngine with
    clock := { baseClock with isIdleFlag := true }
    project := { baseProject with selectedTrackIndex := 5 }
    trackEngines :=
      { (default : TrackEngine) with idleOutput := true, idleGateOutputAt := fun _ => true } ::
      List.replicate (CONFIG_TRACK_COUNT - 1) default }

/-- Eight model tracks whose mode is the Last sentinel. -/
def exTracksLast : List Track :=
  List.replicate CONFIG_TRACK_COUNT { trackMode := TrackMode.Last, linkTrack := -1 }

/-- Eight default track states. -/
def exTrackStates : List TrackState :=
  List.replicate CONFIG_TRACK_COUNT default

/-- Eight filled engine slots (Curve engines). -/
def exFilledSlots : List (Option TrackEngine) :=
  List.replicate CONFIG_TRACK_COUNT (some (newTrackEngine TrackMode.Curve))

/-- An engine with both a lock and an unlock request pending. -/
def exLockUnlockEngine : Engine :=
  { baseEngine with requestLock := 1, requestUnlock := 1, lastSystemTicks := 100 }

/-! ## Helper lemmas -/

theorem slotApplyPatterns_getElem? (slot : Slot) :
    ∀ (l : List TrackState) (n i : Nat),
    (slotApplyPatterns slot n l)[i]? =
      (l[i]?).map (fun ts => { ts with pattern := slot.pattern (n + i) }) := by
  intro l
  induction l with
  | nil => intro n i; simp [slotApplyPatterns]
  | cons hd tl ih =>
    intro n i
    cases i with
    | zero => simp [slotApplyPatterns]
    | succ i =>
      have := ih (n + 1) i
      simp only [slotApplyPatterns, List.getElem?_cons_succ, this]
      have harith : n + 1 + i = n + (i + 1) := by omega
      rw [harith]

theorem pushAll_resetCalls :
    ∀ (tss : List TrackState) (es : List TrackEngine) (i : Nat),
    ((pushAll tss es)[i]?).map TrackEngine.resetCalls = (es[i]?).map TrackEngine.resetCalls := by
  intro tss
  induction tss with
  | nil => intro es i; cases es <;> simp [pushAll]
  | cons ts tss ih =>
    intro es i
    cases es with
    | nil => simp [pushAll]
    | cons e es =>
      cases i with
      | zero => simp [pushAll, pushTrackState]
      | succ i => simpa [pushAll] using ih es i

theorem applyTrackRequests_pattern (hs hl : Bool) (ts : TrackState)
    (h : patternRequestFires hs hl ts = false) :
    (applyTrackRequests hs hl ts).pattern = ts.pattern := by
  simp only [applyTrackRequests, h, Bool.false_eq_true, if_false, clearTrackRequests]
  split <;> rfl

theorem map_pattern_preserved (f : TrackState → TrackState) (l : List TrackState)
    (h : ∀ ts ∈ l, (f ts).pattern = ts.pattern) (i : Nat) :
    ((l.map f)[i]?).map TrackState.pattern = (l[i]?).map TrackState.pattern := by
  rw [List.getElem?_map]
  cases hx : l[i]? with
  | none => rfl
  | some ts => simp [h ts (List.getElem?_mem hx)]

/-! ## C1: boundary conditions of the arbitration -/

/-- C1: in every invocation of updatePlayState, with `M = syncMeasure * CONFIG_PPQN * 4`,
the synced-request window (`handleSyncedRequestsCond`, Engine.cpp:351) holds exactly
when `tick mod M = 0` or `tick mod M = M - 1`, and the song-slot-advance condition
(`switchToNextSlotCond`, Engine.cpp:352) holds exactly when the call was ticked and
`tick mod M = M - 1`. -/
theorem updatePlayState_boundary_conditions (s : Engine) (ticked : Bool) :
    (handleSyncedRequestsCond s.tick (measureDivisor s.project) = true ↔
      (s.tick % (s.project.syncMeasure * CONFIG_PPQN * 4) = 0 ∨
       s.tick % (s.project.syncMeasure * CONFIG_PPQN * 4) =
         s.project.syncMeasure * CONFIG_PPQN * 4 - 1)) ∧
    (switchToNextSlotCond ticked s.tick (measureDivisor s.project) = true ↔
      (ticked = true ∧ s.tick % (s.project.syncMeasure * CONFIG_PPQN * 4) =
         s.project.syncMeasure * CONFIG_PPQN * 4 - 1)) := by
  constructor
  · simp [handleSyncedRequestsCond, measureDivisor]
  · simp [switchToNextSlotCond, measureDivisor]

/-! ## C2: song slot advance -/

/-- C2 counterexample: `exRepeatEngine` is playing slot 0 whose repeat target is
2, at a boundary-preceding tick with no requests.  The arbitration does NOT
advance the slot (slot stays 0, repeat becomes 1 < target), yet every track
engine IS reset (Engine.cpp:456 runs on every boundary while playing) — the
claim that the song resets every track engine only when the current slot's
repeat target is reached is false here. -/
theorem songSlotRepeat_resets_engines :
    (updatePlayState true exRepeatEngine).project.playState.songState.currentSlot = 0 ∧
    (updatePlayState true exRepeatEngine).project.playState.songState.currentRepeat = 1 ∧
    (exRepeatEngine.project.song.slot 0).repeats = 2 ∧
    ((updatePlayState true exRepeatEngine).trackEngines.getD 0 default).resetCalls = 1 ∧
    (exRepeatEngine.trackEngines.getD 0 default).resetCalls = 0 := by
  refine ⟨rfl, rfl, rfl, rfl, rfl⟩

/-- C2 (amended): when the song is playing and switchToNextSlot holds in a
ticked arbitration call with no pending requests, then: if the current slot's
repeat target is not yet reached the current repeat is incremented and the slot
is unchanged; otherwise the repeat counter resets to 0 and the song advances to
the next slot, wrapping back to slot 0 after the last slot.  In BOTH cases the
(possibly new) current slot's per-track patterns are re-applied to every track
state and every track engine is reset (this is where the original claim was
wrong: the pattern re-apply and engine resets are not restricted to the case
where the repeat target is reached).  The S5 slot sequence 0, 1, 0, 1 holds
(see the witness). -/
theorem songSlotAdvance (s : Engine)
    (h1 : s.project.playState.hasImmediateRequests = false)
    (h2 : s.project.playState.hasSyncedRequests = false)
    (h3 : s.project.playState.executeLatchedRequests = false)
    (h4 : s.project.playState.songState.playing = true)
    (h5 : s.tick % measureDivisor s.project = measureDivisor s.project - 1) :
    ((s.project.playState.songState.currentRepeat + 1 <
        (s.project.song.slot s.project.playState.songState.currentSlot).repeats →
      (updatePlayState true s).project.playState.songState.currentRepeat =
        s.project.playState.songState.currentRepeat + 1 ∧
      (updatePlayState true s).project.playState.songState.currentSlot =
        s.project.playState.songState.currentSlot) ∧
     (¬(s.project.playState.songState.currentRepeat + 1 <
        (s.project.song.slot s.project.playState.songState.currentSlot).repeats) →
      (updatePlayState true s).project.playState.songState.currentRepeat = 0 ∧
      (updatePlayState true s).project.playState.songState.currentSlot =
        (if s.project.playState.songState.currentSlot + 1 < s.project.song.slotCount
         then s.project.playState.songState.currentSlot + 1 else 0))) ∧
    (∀ i : Nat,
      ((updatePlayState true s).project.playState.trackStates[i]?).map TrackState.pattern =
      (s.project.playState.trackStates[i]?).map (fun _ =>
        (s.project.song.slot
          (updatePlayState true s).project.playState.songState.currentSlot).pattern i)) ∧
    (∀ i : Nat,
      ((updatePlayState true s).trackEngines[i]?).map TrackEngine.resetCalls =
      (s.trackEngines[i]?).map (fun e => e.resetCalls + 1)) := by
  have hM : switchToNextSlotCond true s.tick (measureDivisor s.project) = true := by
    simp [switchToNextSlotCond, h5]
  simp only [updatePlayState, h1, h2, h3, h4, hM, Bool.false_or, Bool.or_false,
    Bool.false_and, Bool.and_false, Bool.true_and, Bool.and_true, if_false,
    Bool.false_eq_true, if_true]
  refine ⟨⟨?_, ?_⟩, ?_, ?_⟩
  · intro hrep
    simp [slotAdvance, hrep]
  · intro hrep
    simp [slotAdvance, hrep]
  · intro i
    rw [slotApplyPatterns_getElem?]
    cases hx : s.project.playState.trackStates[i]? <;> simp
  · intro i
    rw [pushAll_resetCalls, List.getElem?_map]
    cases hx : s.trackEngines[i]? <;> simp [resetEngine]

/-- C2 witness (scenario S5): a song of 2 slots with 1 repeat each, playing
from slot 0; over three successive boundary-preceding ticks (767, 1535, 2303
with M = 768) the slot sequence is 0, 1, 0, 1. -/
theorem songSlotAdvance_witness :
    exWrapEngine.project.playState.songState.playing = true ∧
    exWrapEngine.tick % measureDivisor exWrapEngine.project =
      measureDivisor exWrapEngine.project - 1 ∧
    exWrapEngine.project.playState.songState.currentSlot = 0 ∧
    (updatePlayState true exWrapEngine).project.playState.songState.currentRepeat = 0 ∧
    (updatePlayState true exWrapEngine).project.playState.songState.currentSlot = 1 ∧
    (updatePlayState true
      { (updatePlayState true exWrapEngine) with
        tick := 1535 }).project.playState.songState.currentSlot = 0 ∧
    (updatePlayState true
      { (updatePlayState true
          { (updatePlayState true exWrapEngine) with tick := 1535 }) with
        tick := 2303 }).project.playState.songState.currentSlot = 1 := by
  have h := songSlotAdvance exWrapEngine rfl rfl rfl rfl (by decide)
  have hcase := h.1.2 (by decide)
  refine ⟨rfl, by decide, rfl, hcase.1, ?_, ?_, ?_⟩
  · simpa using hcase.2
  · rfl
  · rfl

/-! ## C3: stale song Play request -/

/-- C3: when a song Play request fires (here: an immediate one, in a pre-tick
call) but its requestedSlot lies outside [0, slotCount), the request is
silently ignored — currentSlot, currentRepeat and playing and every track
state's pattern are unchanged (no stop request and no pattern request fired,
so no other clause of the arbitration touches them) — yet the play request
bits are cleared in the same call (Engine.cpp:397-416): the immediate bit
always, the synced/latched bits exactly when their windows were active. -/
theorem stalePlayRequest_ignored (s : Engine)
    (himm : s.project.playState.hasImmediateRequests = true)
    (hplay : s.project.playState.songState.immediatePlayRequest = true)
    (hrange : ¬(0 ≤ s.project.playState.songState.requestedSlot ∧
                s.project.playState.songState.requestedSlot < s.project.song.slotCount))
    (hstop1 : s.project.playState.songState.immediateStopRequest = false)
    (hstop2 : s.project.playState.songState.syncedStopRequest = false)
    (hstop3 : s.project.playState.songState.latchedStopRequest = false)
    (hpat : ∀ ts ∈ s.project.playState.trackStates,
      ts.immediatePatternRequest = false ∧ ts.syncedPatternRequest = false ∧
      ts.latchedPatternRequest = false) :
    (updatePlayState false s).project.playState.songState.currentSlot =
      s.project.playState.songState.currentSlot ∧
    (updatePlayState false s).project.playState.songState.currentRepeat =
      s.project.playState.songState.currentRepeat ∧
    (updatePlayState false s).project.playState.songState.playing =
      s.project.playState.songState.playing ∧
    (∀ i : Nat,
      ((updatePlayState false s).project.playState.trackStates[i]?).map TrackState.pattern =
      (s.project.playState.trackStates[i]?).map TrackState.pattern) ∧
    (updatePlayState false s).project.playState.songState.immediatePlayRequest = false ∧
    (updatePlayState false s).project.playState.songState.syncedPlayRequest =
      (s.project.playState.songState.syncedPlayRequest &&
        !handleSyncedRequestsCond s.tick (measureDivisor s.project)) ∧
    (updatePlayState false s).project.playState.songState.latchedPlayRequest =
      (s.project.playState.songState.latchedPlayRequest &&
        !s.project.playState.executeLatchedRequests) := by
  have hv : (decide (0 ≤ s.project.playState.songState.requestedSlot) &&
      decide (s.project.playState.songState.requestedSlot < s.project.song.slotCount)) = false := by
    by_cases hA : 0 ≤ s.project.playState.songState.requestedSlot
    · have hB : ¬(s.project.playState.songState.requestedSlot < s.project.song.slotCount) :=
        fun hb => hrange ⟨hA, hb⟩
      simp [hB]
    · simp [hA]
  have hany : ∀ hs hl : Bool,
      s.project.playState.trackStates.any (patternRequestFires hs hl) = false := by
    intro hs hl
    rw [List.any_eq_false]
    intro ts hts
    rcases hpat ts hts with ⟨p1, p2, p3⟩
    simp [patternRequestFires, p1, p2, p3]
  have hstopf : ∀ hs hl : Bool,
      stopRequestFires hs hl s.project.playState.songState = false := by
    intro hs hl
    simp [stopRequestFires, hstop1, hstop2, hstop3]
  have hpres : ∀ i : Nat,
      ((s.project.playState.trackStates.map
        (applyTrackRequests (handleSyncedRequestsCond s.tick (measureDivisor s.project))
          s.project.playState.executeLatchedRequests))[i]?).map TrackState.pattern =
      (s.project.playState.trackStates[i]?).map TrackState.pattern := by
    intro i
    apply map_pattern_preserved
    intro ts hts
    rcases hpat ts hts with ⟨p1, p2, p3⟩
    exact applyTrackRequests_pattern _ _ ts (by simp [patternRequestFires, p1, p2, p3])
  simp only [updatePlayState, playRequestFires, himm, hplay, hv, hany, hstopf,
    switchToNextSlotCond, Bool.true_or, Bool.or_true, Bool.true_and, Bool.and_true,
    Bool.false_and, Bool.and_false, Bool.or_false, Bool.false_or, Bool.false_eq_true,
    if_false, if_true, clearSongRequests]
  refine ⟨by trivial, by trivial, by trivial, ?_, by trivial, by trivial, by trivial⟩
  exact hpres

/-- C3 witness: a concrete engine with an immediate Play request for slot 5 of
a two-slot song; the request is dropped but its bit cleared. -/
theorem stalePlayRequest_ignored_witness :
    exStaleSlotEngine.project.playState.hasImmediateRequests = true ∧
    exStaleSlotEngine.project.playState.songState.requestedSlot = 5 ∧
    exStaleSlotEngine.project.song.slotCount = 2 ∧
    ((updatePlayState false exStaleSlotEngine).project.playState.songState.currentSlot = 1 ∧
     (updatePlayState false exStaleSlotEngine).project.playState.songState.playing = true ∧
     (updatePlayState false exStaleSlotEngine).project.playState.songState.immediatePlayRequest =
       false) := by
  have h := stalePlayRequest_ignored exStaleSlotEngine rfl rfl
    (by decide) rfl rfl rfl
    (by intro ts hts
        have hts' : ts = default :=
          List.eq_of_mem_replicate (by simpa [exStaleSlotEngine, basePlayState] using hts)
        subst hts'
        decide)
  refine ⟨rfl, rfl, rfl, ?_, ?_, h.2.2.2.2.1⟩
  · simpa using h.1
  · simpa using h.2.2.1

/-! ## C9: external clock input in Reset mode -/

/-- C9: with clockInputMode = Reset, the Clock not running and the reset line
low, one invocation of the clock-input handler (Engine.cpp:527-537) with
`value = true` issues exactly one slaveStart(External) followed by exactly one
slaveTick(External), in that order; with `value = false` it issues only the
slaveStart(External) and no slaveTick. -/
theorem clockInput_reset_mode :
    clockInputHandler ClockInputMode.Reset false false true =
      [SlaveCmd.slaveStart ClockSource.External, SlaveCmd.slaveTick ClockSource.External] ∧
    clockInputHandler ClockInputMode.Reset false false false =
      [SlaveCmd.slaveStart ClockSource.External] := by
  decide

/-! ## C8: the Last sentinel in updateTrackSetups -/

/-- C8 counterexample: with every model track in mode `Last` and every engine
slot empty (as after `_trackEngines.fill(nullptr)`), updateTrackSetups
dereferences the absent engine: the reconstruction switch leaves the slot
null (Engine.cpp:276-277) and `trackEngine->setMute(...)` (Engine.cpp:281) /
`setSwing` (Engine.cpp:286) then act on a null pointer.  The claim that the
operation completes without dereferencing an absent engine for a slot that
holds no engine is false. -/
theorem trackSetups_nullSlot_deref :
    updateTrackSetupsSlots 0 exTracksLast exTrackStates
      (List.replicate CONFIG_TRACK_COUNT none) = none := by
  rfl

theorem setupSlot_isSome_and_mode (sw : Int) (t : Track) (ts : TrackState) (e : TrackEngine) :
    (setupSlot sw t ts (some e)).isSome = true ∧
    (t.trackMode = TrackMode.Last →
      (setupSlot sw t ts (some e)).map TrackEngine.trackMode = some e.trackMode) := by
  obtain ⟨tm, lt⟩ := t
  by_cases hm : e.trackMode = tm
  · simp [setupSlot, hm]
  · cases tm <;> simp [setupSlot, hm]

/-- C8 (amended): for every model track whose mode is the Last sentinel the
reconstruction branch does nothing (the slot's engine keeps its variant), and
updateTrackSetups completes without a null dereference PROVIDED every slot
already holds an engine; the original claim extended this to slots holding no
engine, which `trackSetups_nullSlot_deref` refutes. -/
theorem trackSetups_lastMode_noop (sw : Int) :
    ∀ (slots : List (Option TrackEngine)) (tracks : List Track) (tss : List TrackState),
    (∀ oe ∈ slots, oe.isSome = true) →
    (updateTrackSetupsSlots sw tracks tss slots).isSome = true ∧
    (∀ out, updateTrackSetupsSlots sw tracks tss slots = some out →
      ∀ i : Nat, (tracks[i]?).map Track.trackMode = some TrackMode.Last →
        (out.getD i none).map TrackEngine.trackMode =
        (slots.getD i none).map TrackEngine.trackMode) := by
  intro slots
  induction slots with
  | nil =>
    intro tracks tss _
    constructor
    · cases tracks <;> cases tss <;> rfl
    · intro out hout i _
      cases tracks <;> cases tss <;>
        (simp only [updateTrackSetupsSlots, Option.some.injEq] at hout; subst hout; rfl)
  | cons sl sls ih =>
    intro tracks tss hall
    have hsl : sl.isSome = true := hall sl (by simp)
    have hall' : ∀ oe ∈ sls, oe.isSome = true := fun oe h => hall oe (by simp [h])
    cases tracks with
    | nil =>
      refine ⟨by cases tss <;> rfl, ?_⟩
      intro out hout i _
      cases tss <;>
        (simp only [updateTrackSetupsSlots, Option.some.injEq] at hout; subst hout; rfl)
    | cons t tr =>
      cases tss with
      | nil =>
        refine ⟨rfl, ?_⟩
        intro out hout i _
        simp only [updateTrackSetupsSlots, Option.some.injEq] at hout
        subst hout
        rfl
      | cons ts tst =>
        obtain ⟨e, he⟩ := Option.isSome_iff_exists.mp hsl
        subst he
        obtain ⟨hsome, hmode⟩ := setupSlot_isSome_and_mode sw t ts e
        obtain ⟨e', he'⟩ := Option.isSome_iff_exists.mp hsome
        obtain ⟨ihsome, ihmode⟩ := ih tr tst hall'
        obtain ⟨rest, hrest⟩ := Option.isSome_iff_exists.mp ihsome
        constructor
        · simp [updateTrackSetupsSlots, he', hrest]
        · intro out hout i hlast
          simp only [updateTrackSetupsSlots, he', hrest, Option.some.injEq] at hout
          subst hout
          cases i with
          | zero =>
            have hl : t.trackMode = TrackMode.Last := by simpa using hlast
            have := hmode hl
            rw [he'] at this
            simpa using this
          | succ i =>
            have := ihmode rest hrest i (by simpa using hlast)
            simpa using this

/-- C8 witness: with every slot filled (Curve engines) and every track in mode
Last, updateTrackSetups succeeds (no null dereference). -/
theorem trackSetups_lastMode_witness :
    (∀ oe ∈ exFilledSlots, oe.isSome = true) ∧
    (updateTrackSetupsSlots 0 exTracksLast exTrackStates exFilledSlots).isSome = true := by
  have hall : ∀ oe ∈ exFilledSlots, oe.isSome = true := by
    intro oe h
    have := List.eq_of_mem_replicate (by simpa [exFilledSlots] using h)
    simp [this]
  exact ⟨hall, (trackSetups_lastMode_noop 0 exFilledSlots exTracksLast exTrackStates hall).1⟩

/-! ## C6: per-source sub-index allocation in updateTrackOutputs -/

theorem drawsOk_nil (cnt : Nat → Nat) : drawsOk cnt [] := by
  intro k d h
  simp at h

theorem drawsOk_cons (cnt : Nat → Nat) (t : Nat) (b : Bool) (l : List Draw)
    (h : drawsOk (bump cnt t) l) :
    drawsOk cnt ({ source := t, subIndex := cnt t, usedIdle := b } :: l) := by
  intro k d hk
  cases k with
  | zero =>
    simp only [List.getElem?_cons_zero, Option.some.injEq] at hk
    subst hk
    simp [countSrc]
  | succ k =>
    simp only [List.getElem?_cons_succ] at hk
    have hh := h k d hk
    rw [List.take_succ_cons, countSrc, List.countP_cons]
    simp only [countSrc] at hh
    rcases eq_or_ne d.source t with hst | hst
    · subst hst
      simp [bump] at hh
      simp only [beq_self_eq_true, if_pos]
      omega
    · have hts : ((({ source := t, subIndex := cnt t, usedIdle := b } : Draw)).source ==
          d.source) = false := by
        simp only [beq_eq_false_iff_ne, ne_eq]
        exact fun h' => hst h'.symm
      rw [hts]
      simp only [bump, if_neg hst] at hh
      simpa using hh

theorem outputsGo_drawsOk (isIdle gateOv cvOv : Bool) (selected : Nat)
    (gateTracks cvTracks : List Nat) :
    ∀ (idxs : List Nat) (engines : List TrackEngine) (gates : List Bool)
      (cv : Nat → Int) (gcnt ccnt : Nat → Nat),
    drawsOk gcnt (outputsGo isIdle gateOv cvOv selected gateTracks cvTracks
      idxs engines gates cv gcnt ccnt).gateDraws ∧
    drawsOk ccnt (outputsGo isIdle gateOv cvOv selected gateTracks cvTracks
      idxs engines gates cv gcnt ccnt).cvDraws := by
  intro idxs
  induction idxs with
  | nil =>
    intro engines gates cv gcnt ccnt
    exact ⟨drawsOk_nil _, drawsOk_nil _⟩
  | cons idx rest ih =>
    intro engines gates cv gcnt ccnt
    cases gateOv <;> cases cvOv <;>
      simp only [outputsGo, if_true, if_false, Bool.false_eq_true, Option.map_some,
        Option.map_none, Option.toList_some, Option.toList_none, List.nil_append,
        List.singleton_append] <;>
      constructor <;>
      first
        | exact (ih _ _ _ _ _).1
        | exact (ih _ _ _ _ _).2
        | exact drawsOk_cons _ _ _ _ (ih _ _ _ _ _).1
        | exact drawsOk_cons _ _ _ _ (ih _ _ _ _ _).2

theorem drawsOk_monotone (cnt : Nat → Nat) (l : List Draw) (h : drawsOk cnt l)
    (i j : Nat) (di dj : Draw) (hi : l[i]? = some di) (hj : l[j]? = some dj)
    (hij : i < j) (hsrc : di.source = dj.source) : di.subIndex < dj.subIndex := by
  have h1 := h i di hi
  have h2 := h j dj hj
  rw [← hsrc] at h2
  have hstep : countSrc di.source (l.take (i + 1)) = countSrc di.source (l.take i) + 1 := by
    rw [List.take_succ, hi]
    simp [countSrc, List.countP_append]
  have hsub : List.Sublist (l.take (i + 1)) (l.take j) := by
    have heq : l.take (i + 1) = (l.take j).take (i + 1) := by
      rw [List.take_take, Nat.min_eq_left (Nat.succ_le_of_lt hij)]
    rw [heq]
    exact List.take_sublist _ _
  have hmono : countSrc di.source (l.take (i + 1)) ≤ countSrc di.source (l.take j) :=
    List.Sublist.countP_le _ hsub
  omega

/-- C6: within a single pass of updateTrackOutputs, for each output kind
separately, if two physical channels i < j draw from the same source track,
the sub-index passed at channel i is strictly smaller than the one passed at
channel j; moreover every draw's sub-index equals the number of earlier draws
from the same source in the same pass (sub-indices are handed out 0, 1, 2, …
per source, in order of physical index). -/
theorem output_subindex_monotone (s : Engine) :
    (∀ (i j : Nat) (di dj : Draw),
      (updateTrackOutputs s).2.1[i]? = some di →
      (updateTrackOutputs s).2.1[j]? = some dj →
      i < j → di.source = dj.source → di.subIndex < dj.subIndex) ∧
    (∀ (k : Nat) (d : Draw), (updateTrackOutputs s).2.1[k]? = some d →
      d.subIndex = countSrc d.source ((updateTrackOutputs s).2.1.take k)) ∧
    (∀ (i j : Nat) (di dj : Draw),
      (updateTrackOutputs s).2.2[i]? = some di →
      (updateTrackOutputs s).2.2[j]? = some dj →
      i < j → di.source = dj.source → di.subIndex < dj.subIndex) ∧
    (∀ (k : Nat) (d : Draw), (updateTrackOutputs s).2.2[k]? = some d →
      d.subIndex = countSrc d.source ((updateTrackOutputs s).2.2.take k)) := by
  have hgo := outputsGo_drawsOk s.clock.isIdleFlag s.gateOutputOverride s.cvOutputOverride
    s.project.selectedTrackIndex s.project.gateOutputTracks s.project.cvOutputTracks
    (List.range' 0 CONFIG_TRACK_COUNT) s.trackEngines s.gateOutput s.cvOutput.channels
    (fun _ => 0) (fun _ => 0)
  have hg : drawsOk (fun _ => 0) (updateTrackOutputs s).2.1 := hgo.1
  have hc : drawsOk (fun _ => 0) (updateTrackOutputs s).2.2 := hgo.2
  refine ⟨?_, ?_, ?_, ?_⟩
  · intro i j di dj hi hj hij hsrc
    exact drawsOk_monotone _ _ hg i j di dj hi hj hij hsrc
  · intro k d hk
    simpa using hg k d hk
  · intro i j di dj hi hj hij hsrc
    exact drawsOk_monotone _ _ hc i j di dj hi hj hij hsrc
  · intro k d hk
    simpa using hc k d hk

/-- C6 witness: physical outputs 0 and 1 both source track 1; the recorded
draws carry sub-indices 0 and 1, and the theorem yields 0 < 1. -/
theorem output_subindex_monotone_witness :
    (updateTrackOutputs exSharedSourceEngine).2.1[0]? =
      some { source := 1, subIndex := 0, usedIdle := false } ∧
    (updateTrackOutputs exSharedSourceEngine).2.1[1]? =
      some { source := 1, subIndex := 1, usedIdle := false } ∧
    ({ source := 1, subIndex := 0, usedIdle := false } : Draw).subIndex <
      ({ source := 1, subIndex := 1, usedIdle := false } : Draw).subIndex := by
  refine ⟨rfl, rfl, ?_⟩
  exact (output_subindex_monotone exSharedSourceEngine).1 0 1 _ _ rfl rfl
    (by decide) rfl

/-! ## C7: idle-output clearing in the output pass -/

theorem clearIdleAt_getD_ne (l : List TrackEngine) (i t : Nat) (hne : t ≠ i)
    (d : TrackEngine) : (clearIdleAt l i).getD t d = l.getD t d := by
  induction l generalizing i t with
  | nil => rfl
  | cons e rest ih =>
    cases i with
    | zero =>
      cases t with
      | zero => exact absurd rfl hne
      | succ t => rfl
    | succ i =>
      cases t with
      | zero => rfl
      | succ t =>
        simpa [clearIdleAt] using ih i t (fun h => hne (by rw [h]))

theorem clearIdleAt_getD_self (l : List TrackEngine) (i : Nat) :
    ((clearIdleAt l i).getD i default).idleOutput = false := by
  induction l generalizing i with
  | nil => rfl
  | cons e rest ih =>
    cases i with
    | zero => rfl
    | succ i => simpa [clearIdleAt] using ih i

theorem outputsGo_idle_cleared (isIdle gateOv cvOv : Bool) (selected : Nat)
    (gateTracks cvTracks : List Nat) :
    ∀ (k n : Nat) (engines : List TrackEngine) (gates : List Bool) (cv : Nat → Int)
      (gcnt ccnt : Nat → Nat),
    (∀ t, t < n → t ≠ selected → (engines.getD t default).idleOutput = false) →
    (∀ (p : Nat) (d : Draw),
      (outputsGo isIdle gateOv cvOv selected gateTracks cvTracks (List.range' n k)
        engines gates cv gcnt ccnt).gateDraws[p]? = some d →
      d.source ≠ selected → d.source ≤ n + p → d.usedIdle = false) ∧
    (∀ (p : Nat) (d : Draw),
      (outputsGo isIdle gateOv cvOv selected gateTracks cvTracks (List.range' n k)
        engines gates cv gcnt ccnt).cvDraws[p]? = some d →
      d.source ≠ selected → d.source ≤ n + p → d.usedIdle = false) := by
  intro k
  induction k with
  | zero =>
    intro n engines gates cv gcnt ccnt _
    constructor <;> (intro p d hd; simp [outputsGo] at hd)
  | succ k ih =>
    intro n engines gates cv gcnt ccnt hinv
    have hrange : List.range' n (k + 1) = n :: List.range' (n + 1) k := rfl
    have hinv1 : ∀ t, t < n + 1 → t ≠ selected →
        (((if n = selected then engines else clearIdleAt engines n).getD t default)).idleOutput
          = false := by
      intro t ht hts
      by_cases hsel : n = selected
      · rw [if_pos hsel]
        rcases Nat.lt_succ_iff_lt_or_eq.mp ht with h | h
        · exact hinv t h hts
        · exact absurd (h.trans hsel) hts
      · rw [if_neg hsel]
        rcases Nat.lt_succ_iff_lt_or_eq.mp ht with h | h
        · rw [clearIdleAt_getD_ne engines n t (by omega)]
          exact hinv t h hts
        · subst h
          exact clearIdleAt_getD_self engines t
    rw [hrange]
    constructor
    · intro p d hd hsel hle
      cases hg : gateOv with
      | true =>
        subst hg
        simp only [outputsGo, if_true, Option.map_none', Option.toList_none,
          List.nil_append] at hd
        exact (ih (n + 1) _ _ _ _ _ hinv1).1 p d hd hsel (by omega)
      | false =>
        subst hg
        simp only [outputsGo, Bool.false_eq_true, if_false, Option.map_some',
          Option.toList_some, List.singleton_append] at hd
        cases p with
        | zero =>
          simp only [List.getElem?_cons_zero, Option.some.injEq] at hd
          subst hd
          have hsrc : gateTracks.getD n 0 < n + 1 := by
            simp only at hsel hle
            omega
          have := hinv1 (gateTracks.getD n 0) hsrc (by simpa using hsel)
          simp only [List.getD, List.get?_eq_getElem?] at this
          simp [List.getD, List.get?_eq_getElem?, this]
        | succ p =>
          simp only [List.getElem?_cons_succ] at hd
          exact (ih (n + 1) _ _ _ _ _ hinv1).1 p d hd hsel (by omega)
    · intro p d hd hsel hle
      cases hc : cvOv with
      | true =>
        subst hc
        simp only [outputsGo, if_true, Option.map_none', Option.toList_none,
          List.nil_append] at hd
        exact (ih (n + 1) _ _ _ _ _ hinv1).2 p d hd hsel (by omega)
      | false =>
        subst hc
        simp only [outputsGo, Bool.false_eq_true, if_false, Option.map_some',
          Option.toList_some, List.singleton_append] at hd
        cases p with
        | zero =>
          simp only [List.getElem?_cons_zero, Option.some.injEq] at hd
          subst hd
          have hsrc : cvTracks.getD n 0 < n + 1 := by
            simp only at hsel hle
            omega
          have := hinv1 (cvTracks.getD n 0) hsrc (by simpa using hsel)
          simp only [List.getD, List.get?_eq_getElem?] at this
          simp [List.getD, List.get?_eq_getElem?, this]
        | succ p =>
          simp only [List.getElem?_cons_succ] at hd
          exact (ih (n + 1) _ _ _ _ _ hinv1).2 p d hd hsel (by omega)

/-- C7 counterexample: with the clock idle and track 0 selected, physical
output 0 draws from non-selected track 1 BEFORE the pass reaches index 1 and
clears that track's idle output, so the idle value (true) of a non-selected
track is presented on a physical output — refuting the claim that every
non-selected track has its idle output cleared before any value is drawn and
that only the selected track can present idle previews. -/
theorem idleLeak_nonselected :
    (updateTrackOutputs exIdleLeakEngine).2.1[0]? =
      some { source := 1, subIndex := 0, usedIdle := true } ∧
    exIdleLeakEngine.project.selectedTrackIndex = 0 ∧
    (updateTrackOutputs exIdleLeakEngine).1.gateOutput.getD 0 false = true ∧
    ((exIdleLeakEngine.trackEngines.getD 1 default).gateOutputAt 0) = false := by
  exact ⟨rfl, rfl, rfl, rfl⟩

/-- C7 (amended): each track other than the selected one has its idle output
cleared when the output pass reaches that track's physical index, before that
iteration's draws; consequently a non-selected track t never presents an idle
value on a physical output with index ≥ t (but may still present one on an
output with index < t, as the counterexample shows). -/
theorem idleClear_scope (s : Engine) :
    (∀ (p : Nat) (d : Draw), (updateTrackOutputs s).2.1[p]? = some d →
      d.source ≠ s.project.selectedTrackIndex → d.source ≤ p → d.usedIdle = false) ∧
    (∀ (p : Nat) (d : Draw), (updateTrackOutputs s).2.2[p]? = some d →
      d.source ≠ s.project.selectedTrackIndex → d.source ≤ p → d.usedIdle = false) := by
  have h := outputsGo_idle_cleared s.clock.isIdleFlag s.gateOutputOverride s.cvOutputOverride
    s.project.selectedTrackIndex s.project.gateOutputTracks s.project.cvOutputTracks
    CONFIG_TRACK_COUNT 0 s.trackEngines s.gateOutput s.cvOutput.channels
    (fun _ => 0) (fun _ => 0) (by intro t ht; omega)
  constructor
  · intro p d hp hne hle
    exact h.1 p d hp hne (by omega)
  · intro p d hp hne hle
    exact h.2 p d hp hne (by omega)

/-- C7 witness: track 5 is selected and the clock idle; output 0 draws from
the non-selected track 0 whose engine advertised an idle output, but since the
clear of track 0 happens at index 0 before the draw, the draw is not idle. -/
theorem idleClear_scope_witness :
    (updateTrackOutputs exIdleClearedEngine).2.1[0]? =
      some { source := 0, subIndex := 0, usedIdle := false } ∧
    (exIdleClearedEngine.trackEngines.getD 0 default).idleOutput = true ∧
    ({ source := 0, subIndex := 0, usedIdle := false } : Draw).usedIdle = false := by
  refine ⟨rfl, rfl, ?_⟩
  exact (idleClear_scope exIdleClearedEngine).1 0 _ rfl (by decide) (by decide)

/-! ## Preservation of the stable fields through the update phases -/

theorem foldl_stable {β : Type} (g : Engine → β → Engine) (l : List β) (s : Engine)
    (h : ∀ a b, stableFields (g a b) = stableFields a) :
    stableFields (l.foldl g s) = stableFields s := by
  induction l generalizing s with
  | nil => rfl
  | cons x xs ih => rw [List.foldl_cons, ih, h]

theorem stableFields_processClockEvents (s : Engine) :
    stableFields (processClockEvents s) = stableFields s := by
  calc stableFields (processClockEvents s)
      = stableFields (s.clock.eventQueue.foldl processEvent s) := rfl
    _ = stableFields s := foldl_stable _ _ _ (fun a b => by cases b <;> rfl)

theorem stableFields_receiveMidiAll (s : Engine) :
    stableFields (receiveMidiAll s) = stableFields s := by
  calc stableFields (receiveMidiAll s)
      = stableFields ((s.midiQueue.foldl receiveMidiMessage s).usbMidiQueue.foldl
          receiveMidiMessage (s.midiQueue.foldl receiveMidiMessage s)) := rfl
    _ = stableFields (s.midiQueue.foldl receiveMidiMessage s) :=
        foldl_stable _ _ _ (fun a b => rfl)
    _ = stableFields s := foldl_stable _ _ _ (fun a b => rfl)

theorem stableFields_updateTempo (s : Engine) :
    stableFields (updateTempo s) = stableFields s := rfl

theorem clockSetupApply_masterStopCalls (cs : ClockSetup) (resetInput : Bool) (c : Clock) :
    (clockSetupApply cs resetInput c).masterStopCalls = c.masterStopCalls := by
  obtain ⟨m, cim, com, cid, cod, cop, mrx, urx, mtx, utx, d⟩ := cs
  cases m <;> cases cim <;> simp only [clockSetupApply] <;> split_ifs <;> rfl

theorem stableFields_updateClockSetup (s : Engine) :
    stableFields (updateClockSetup s) = stableFields s := by
  simp only [updateClockSetup]
  split
  · rfl
  · simp [stableFields, onClockOutputApply, clockSetupApply_masterStopCalls]

theorem stableFields_updateTrackSetups (s : Engine) :
    stableFields (updateTrackSetups s) = stableFields s := rfl

theorem stableFields_updatePlayState (ticked : Bool) (s : Engine) :
    stableFields (updatePlayState ticked s) = stableFields s := rfl

theorem stableFields_updateCvInput (s : Engine) :
    stableFields (updateCvInput s) = stableFields s := rfl

theorem stableFields_updateRouting (s : Engine) :
    stableFields (updateRouting s) = stableFields s := rfl

theorem stableFields_tickLoopPhase (s : Engine) :
    stableFields (tickLoopPhase s) = stableFields s := by
  simp only [tickLoopPhase]
  split <;> exact foldl_stable tickStep s.clock.tickQueue s (fun a b => rfl)

theorem stableFields_enginesDtUpdate (dt : Nat) (s : Engine) :
    stableFields (enginesDtUpdate dt s) = stableFields s := rfl

theorem stableFields_updateOverrides (s : Engine) :
    stableFields (updateOverrides s) = stableFields s := rfl

theorem stableFields_cvOutputUpdatePhase (s : Engine) :
    stableFields (cvOutputUpdatePhase s) = stableFields s := rfl

theorem stableFields_unlockedBody (dt : Nat) (s : Engine) :
    stableFields (unlockedBody dt s) = stableFields s := by
  simp only [unlockedBody, stableFields_enginesDtUpdate, stableFields_tickLoopPhase,
    stableFields_updateRouting, stableFields_updateCvInput, stableFields_updatePlayState,
    stableFields_updateTrackSetups, stableFields_updateClockSetup, stableFields_updateTempo,
    stableFields_receiveMidiAll, stableFields_processClockEvents]

theorem stableFields_unlockedCycle (dt : Nat) (s : Engine) :
    stableFields (unlockedCycle dt s) = stableFields s := by
  calc stableFields (unlockedCycle dt s) = stableFields (unlockedBody dt s) := rfl
    _ = stableFields s := stableFields_unlockedBody dt s

theorem stableFields_lockedCycle (s : Engine) :
    stableFields (lockedCycle s) = stableFields s := rfl

/-! ## C5: output overrides -/

theorem outputsGo_gates_skip (isIdle cvOv : Bool) (selected : Nat)
    (gateTracks cvTracks : List Nat) :
    ∀ (idxs : List Nat) (engines : List TrackEngine) (gates : List Bool)
      (cv : Nat → Int) (gcnt ccnt : Nat → Nat),
    (outputsGo isIdle true cvOv selected gateTracks cvTracks
      idxs engines gates cv gcnt ccnt).gates = gates := by
  intro idxs
  induction idxs with
  | nil => intro engines gates cv gcnt ccnt; rfl
  | cons idx rest ih => intro engines gates cv gcnt ccnt; exact ih _ _ _ _ _

theorem outputsGo_cv_skip (isIdle gateOv : Bool) (selected : Nat)
    (gateTracks cvTracks : List Nat) :
    ∀ (idxs : List Nat) (engines : List TrackEngine) (gates : List Bool)
      (cv : Nat → Int) (gcnt ccnt : Nat → Nat),
    (outputsGo isIdle gateOv true selected gateTracks cvTracks
      idxs engines gates cv gcnt ccnt).cv = cv := by
  intro idxs
  induction idxs with
  | nil => intro engines gates cv gcnt ccnt; rfl
  | cons idx rest ih => intro engines gates cv gcnt ccnt; exact ih _ _ _ _ _

theorem updateTrackOutputs_skip (s : Engine) :
    (s.gateOutputOverride = true → (updateTrackOutputs s).1.gateOutput = s.gateOutput) ∧
    (s.cvOutputOverride = true → (updateTrackOutputs s).1.cvOutput.channels = s.cvOutput.channels) := by
  constructor
  · intro h
    calc (updateTrackOutputs s).1.gateOutput
        = (outputsGo s.clock.isIdleFlag s.gateOutputOverride s.cvOutputOverride
            s.project.selectedTrackIndex s.project.gateOutputTracks s.project.cvOutputTracks
            (List.range' 0 CONFIG_TRACK_COUNT) s.trackEngines s.gateOutput s.cvOutput.channels
            (fun _ => 0) (fun _ => 0)).gates := rfl
      _ = s.gateOutput := by rw [h]; exact outputsGo_gates_skip _ _ _ _ _ _ _ _ _ _ _
  · intro h
    calc (updateTrackOutputs s).1.cvOutput.channels
        = (outputsGo s.clock.isIdleFlag s.gateOutputOverride s.cvOutputOverride
            s.project.selectedTrackIndex s.project.gateOutputTracks s.project.cvOutputTracks
            (List.range' 0 CONFIG_TRACK_COUNT) s.trackEngines s.gateOutput s.cvOutput.channels
            (fun _ => 0) (fun _ => 0)).cv := rfl
      _ = s.cvOutput.channels := by rw [h]; exact outputsGo_cv_skip _ _ _ _ _ _ _ _ _ _ _

theorem applyCvOverrideGo_lt :
    ∀ (values : List Int) (n : Nat) (ch : Nat → Int) (j : Nat), j < n →
    applyCvOverrideGo n ch values j = ch j := by
  intro values
  induction values with
  | nil => intro n ch j hj; rfl
  | cons v rest ih =>
    intro n ch j hj
    have step := ih (n + 1) (fun x => if x = n then v else ch x) j (by omega)
    calc applyCvOverrideGo n ch (v :: rest) j
        = applyCvOverrideGo (n + 1) (fun x => if x = n then v else ch x) rest j := rfl
      _ = (if j = n then v else ch j) := step
      _ = ch j := by rw [if_neg (by omega)]

theorem applyCvOverrideGo_at :
    ∀ (values : List Int) (n : Nat) (ch : Nat → Int) (i : Nat), i < values.length →
    applyCvOverrideGo n ch values (n + i) = values.getD i 0 := by
  intro values
  induction values with
  | nil => intro n ch i h; simp at h
  | cons v rest ih =>
    intro n ch i hi
    cases i with
    | zero =>
      have hlt := applyCvOverrideGo_lt rest (n + 1) (fun x => if x = n then v else ch x) n
        (by omega)
      calc applyCvOverrideGo n ch (v :: rest) (n + 0)
          = applyCvOverrideGo (n + 1) (fun x => if x = n then v else ch x) rest n := rfl
        _ = (if n = n then v else ch n) := hlt
        _ = (v :: rest).getD 0 0 := by rw [if_pos rfl]; rfl
    | succ i =>
      have step := ih (n + 1) (fun x => if x = n then v else ch x) i (by simpa using hi)
      calc applyCvOverrideGo n ch (v :: rest) (n + (i + 1))
          = applyCvOverrideGo n ch (v :: rest) ((n + 1) + i) := by
            rw [show n + (i + 1) = (n + 1) + i from by omega]
        _ = applyCvOverrideGo (n + 1) (fun x => if x = n then v else ch x) rest ((n + 1) + i) := rfl
        _ = rest.getD i 0 := step
        _ = (v :: rest).getD (i + 1) 0 := rfl

theorem lockTransition_overrides (y : Engine) :
    (lockTransition y).gateOutputOverride = y.gateOutputOverride ∧
    (lockTransition y).gateOutputOverrideValue = y.gateOutputOverrideValue ∧
    (lockTransition y).cvOutputOverride = y.cvOutputOverride ∧
    (lockTransition y).cvOutputOverrideValues = y.cvOutputOverrideValues := by
  simp only [lockTransition]
  split <;> split <;> exact ⟨rfl, rfl, rfl, rfl⟩

theorem cycle_gate_is_override (y : Engine) (dt : Nat) (h : y.gateOutputOverride = true) :
    (lockedCycle y).gateOutput = y.gateOutputOverrideValue ∧
    (unlockedCycle dt y).gateOutput = y.gateOutputOverrideValue := by
  constructor
  · show (if y.gateOutputOverride then y.gateOutputOverrideValue else y.gateOutput) = _
    simp [h]
  · have hsb := stableFields_unlockedBody dt y
    have h1 : (unlockedBody dt y).gateOutputOverride = y.gateOutputOverride :=
      congrArg (fun p => p.2.2.2.2.1) hsb
    have h2 : (unlockedBody dt y).gateOutputOverrideValue = y.gateOutputOverrideValue :=
      congrArg (fun p => p.2.2.2.2.2.1) hsb
    show (if (unlockedBody dt y).gateOutputOverride then
      (unlockedBody dt y).gateOutputOverrideValue else (unlockedBody dt y).gateOutput) = _
    rw [h1, h2]
    simp [h]

theorem cycle_cv_is_override (y : Engine) (dt : Nat) (h : y.cvOutputOverride = true)
    (i : Nat) (hi : i < y.cvOutputOverrideValues.length) :
    (lockedCycle y).cvOutput.channels i = y.cvOutputOverrideValues.getD i 0 ∧
    (unlockedCycle dt y).cvOutput.channels i = y.cvOutputOverrideValues.getD i 0 := by
  constructor
  · show (if y.cvOutputOverride then
        applyCvOverrideGo 0 y.cvOutput.channels y.cvOutputOverrideValues
      else y.cvOutput.channels) i = _
    rw [if_pos h]
    simpa using applyCvOverrideGo_at y.cvOutputOverrideValues 0 y.cvOutput.channels i hi
  · have hsb := stableFields_unlockedBody dt y
    have h1 : (unlockedBody dt y).cvOutputOverride = y.cvOutputOverride :=
      congrArg (fun p => p.2.2.2.2.2.2.1) hsb
    have h2 : (unlockedBody dt y).cvOutputOverrideValues = y.cvOutputOverrideValues :=
      congrArg (fun p => p.2.2.2.2.2.2.2) hsb
    show (if (unlockedBody dt y).cvOutputOverride then
        applyCvOverrideGo 0 (unlockedBody dt y).cvOutput.channels
          (unlockedBody dt y).cvOutputOverrideValues
      else (unlockedBody dt y).cvOutput.channels) i = _
    rw [h1, if_pos h, h2]
    simpa using applyCvOverrideGo_at y.cvOutputOverrideValues 0
      (unlockedBody dt y).cvOutput.channels i hi

theorem update_override_effects (t : Nat) (s : Engine) :
    (s.gateOutputOverride = true → (update t s).gateOutput = s.gateOutputOverrideValue) ∧
    (s.cvOutputOverride = true → ∀ i : Nat, i < s.cvOutputOverrideValues.length →
      (update t s).cvOutput.channels i = s.cvOutputOverrideValues.getD i 0) := by
  obtain ⟨ho1, ho2, ho3, ho4⟩ := lockTransition_overrides { s with lastSystemTicks := t }
  constructor
  · intro hg
    have hg' : (lockTransition { s with lastSystemTicks := t }).gateOutputOverride = true :=
      ho1.trans hg
    simp only [update]
    split
    · rw [(cycle_gate_is_override _ (t - s.lastSystemTicks) hg').1, ho2]
    · rw [(cycle_gate_is_override _ (t - s.lastSystemTicks) hg').2, ho2]
  · intro hc i hi
    have hc' : (lockTransition { s with lastSystemTicks := t }).cvOutputOverride = true :=
      ho3.trans hc
    have hi' : i < (lockTransition { s with lastSystemTicks := t }).cvOutputOverrideValues.length := by
      rw [ho4]; exact hi
    simp only [update]
    split
    · rw [(cycle_cv_is_override _ (t - s.lastSystemTicks) hc' i hi').1, ho4]
    · rw [(cycle_cv_is_override _ (t - s.lastSystemTicks) hc' i hi').2, ho4]

/-- C5: in every update cycle with gateOutputOverride set, the gate bits
finally written to GateOutput equal gateOutputOverrideValue (Engine.cpp:476)
and the per-track gate write path in updateTrackOutputs is skipped
(Engine.cpp:316); analogously for cvOutputOverride and the CV channels
(Engine.cpp:478-481, 324). -/
theorem override_precedence (t : Nat) (s : Engine) :
    (s.gateOutputOverride = true →
      (update t s).gateOutput = s.gateOutputOverrideValue ∧
      (updateTrackOutputs s).1.gateOutput = s.gateOutput) ∧
    (s.cvOutputOverride = true →
      (∀ i : Nat, i < s.cvOutputOverrideValues.length →
        (update t s).cvOutput.channels i = s.cvOutputOverrideValues.getD i 0) ∧
      (updateTrackOutputs s).1.cvOutput.channels = s.cvOutput.channels) := by
  exact ⟨fun hg => ⟨(update_override_effects t s).1 hg, (updateTrackOutputs_skip s).1 hg⟩,
         fun hc => ⟨fun i hi => (update_override_effects t s).2 hc i hi,
                    (updateTrackOutputs_skip s).2 hc⟩⟩

/-- C5 witness: with both overrides active, the cycle ends with the override
gate bits and CV values on the outputs, whatever the track engines produce. -/
theorem override_precedence_witness :
    exOverrideEngine.gateOutputOverride = true ∧
    exOverrideEngine.cvOutputOverride = true ∧
    (update 5 exOverrideEngine).gateOutput = exOverrideEngine.gateOutputOverrideValue ∧
    (update 5 exOverrideEngine).cvOutput.channels 0 = 10 := by
  refine ⟨rfl, rfl, ((override_precedence 5 exOverrideEngine).1 rfl).1, ?_⟩
  exact (((override_precedence 5 exOverrideEngine).2 rfl).1 0 (by decide)).trans rfl

/-! ## C4: the locked cycle is inert -/

theorem lockTransition_locked_stays (y : Engine) (hl : y.locked = 1)
    (hu : y.requestUnlock = 0) : (lockTransition y).locked = 1 := by
  simp only [lockTransition]
  by_cases h1 : y.requestLock ≠ 0
  · rw [if_pos h1, if_neg (by simp [hu])]
  · rw [if_neg h1, if_neg (by simp [hu])]
    exact hl

theorem lockTransition_inert (y : Engine) :
    (lockTransition y).project = y.project ∧
    (lockTransition y).trackEngines = y.trackEngines ∧
    (lockTransition y).cvOutput = y.cvOutput ∧
    (lockTransition y).gateOutputOverride = y.gateOutputOverride ∧
    (lockTransition y).gateOutputOverrideValue = y.gateOutputOverrideValue := by
  simp only [lockTransition]
  split <;> split <;> exact ⟨rfl, rfl, rfl, rfl, rfl⟩

/-- C4: in a cycle entered locked with no pending unlock request, the engine
stays locked and only drains: no track engine method runs and no arbitration
runs (track engines and the whole model, play state included, are unchanged),
the Clock tick queue and both MIDI queues are drained, overrides are applied,
CvOutput is flushed once — and a pending ImmediateMuteRequest is still set
afterwards (Engine.cpp:60-73). -/
theorem locked_cycle_inert (t : Nat) (s : Engine)
    (hl : s.locked = 1) (hu : s.requestUnlock = 0) :
    (update t s).trackEngines = s.trackEngines ∧
    (update t s).project = s.project ∧
    (update t s).clock.tickQueue = [] ∧
    (update t s).midiQueue = [] ∧
    (update t s).usbMidiQueue = [] ∧
    (update t s).locked = 1 ∧
    (update t s).cvOutput.updateCalls = s.cvOutput.updateCalls + 1 ∧
    (s.gateOutputOverride = true → (update t s).gateOutput = s.gateOutputOverrideValue) ∧
    (∀ i : Nat, ((update t s).project.playState.trackStates[i]?).map
        TrackState.immediateMuteRequest =
      (s.project.playState.trackStates[i]?).map TrackState.immediateMuteRequest) := by
  have hlocked : (lockTransition { s with lastSystemTicks := t }).locked = 1 :=
    lockTransition_locked_stays _ hl hu
  have hred : update t s = lockedCycle (lockTransition { s with lastSystemTicks := t }) := by
    simp only [update]
    rw [if_pos (by rw [hlocked]; exact one_ne_zero)]
  obtain ⟨hpro, htr, hcv, hgo, hgv⟩ := lockTransition_inert { s with lastSystemTicks := t }
  rw [hred]
  refine ⟨htr, hpro, rfl, rfl, rfl, hlocked, ?_, ?_, ?_⟩
  · exact congrArg (fun c => c.updateCalls + 1) hcv
  · intro hg
    have hg' : (lockTransition { s with lastSystemTicks := t }).gateOutputOverride = true :=
      hgo.trans hg
    rw [(cycle_gate_is_override _ 0 hg').1, hgv]
  · intro i
    rw [show (lockedCycle (lockTransition { s with lastSystemTicks := t })).project =
      s.project from hpro]

/-- C4 witness: a locked engine with queued ticks, queued MIDI, an active gate
override and a pending ImmediateMuteRequest on track 0; the cycle drains the
queues, keeps the engines and play state untouched and the mute request set. -/
theorem locked_cycle_inert_witness :
    exLockedEngine.locked = 1 ∧
    exLockedEngine.requestUnlock = 0 ∧
    exLockedEngine.clock.tickQueue = [10, 11, 12] ∧
    (update 7 exLockedEngine).clock.tickQueue = [] ∧
    (update 7 exLockedEngine).trackEngines = exLockedEngine.trackEngines ∧
    ((update 7 exLockedEngine).project.playState.trackStates[0]?).map
      TrackState.immediateMuteRequest = some true := by
  have h := locked_cycle_inert 7 exLockedEngine rfl rfl
  refine ⟨rfl, rfl, rfl, h.2.2.1, h.1, ?_⟩
  rw [h.2.2.2.2.2.2.2.2 0]
  rfl

/-! ## C10: simultaneous lock and unlock requests -/

/-- C10: entered with both requestLock and requestUnlock set, update first
master-stops the Clock and sets locked, then processes the unlock: both flags
end cleared, the engine is unlocked, the rest of the cycle is exactly the
normal unlocked path on the transitioned state, and the net effect is an
unlocked engine whose master clock was stopped exactly once (Engine.cpp:49-58). -/
theorem lock_unlock_same_cycle (t : Nat) (s : Engine)
    (h1 : s.requestLock ≠ 0) (h2 : s.requestUnlock ≠ 0) :
    update t s = unlockedCycle (t - s.lastSystemTicks)
      { s with lastSystemTicks := t, clock := s.clock.masterStop,
               requestLock := 0, requestUnlock := 0, locked := 0 } ∧
    (update t s).locked = 0 ∧
    (update t s).requestLock = 0 ∧
    (update t s).requestUnlock = 0 ∧
    (update t s).clock.masterStopCalls = s.clock.masterStopCalls + 1 := by
  have htrans : lockTransition { s with lastSystemTicks := t } =
      { s with lastSystemTicks := t, clock := s.clock.masterStop,
               requestLock := 0, requestUnlock := 0, locked := 0 } := by
    simp only [lockTransition]
    rw [if_pos h1, if_pos h2]
  have hred : update t s = unlockedCycle (t - s.lastSystemTicks)
      { s with lastSystemTicks := t, clock := s.clock.masterStop,
               requestLock := 0, requestUnlock := 0, locked := 0 } := by
    simp only [update]
    rw [htrans, if_neg (by simp)]
  have hst := stableFields_unlockedCycle (t - s.lastSystemTicks)
    { s with lastSystemTicks := t, clock := s.clock.masterStop,
             requestLock := 0, requestUnlock := 0, locked := 0 }
  refine ⟨hred, ?_, ?_, ?_, ?_⟩
  · rw [hred]; exact congrArg (fun p => p.1) hst
  · rw [hred]; exact congrArg (fun p => p.2.1) hst
  · rw [hred]; exact congrArg (fun p => p.2.2.1) hst
  · rw [hred]; exact congrArg (fun p => p.2.2.2.1) hst

/-- C10 witness: both request flags set; after one update the engine is
unlocked, both flags are cleared and the master clock was stopped once. -/
theorem lock_unlock_same_cycle_witness :
    exLockUnlockEngine.requestLock = 1 ∧
    exLockUnlockEngine.requestUnlock = 1 ∧
    (update 150 exLockUnlockEngine).locked = 0 ∧
    (update 150 exLockUnlockEngine).requestLock = 0 ∧
    (update 150 exLockUnlockEngine).requestUnlock = 0 ∧
    (update 150 exLockUnlockEngine).clock.masterStopCalls =
      exLockUnlockEngine.clock.masterStopCalls + 1 := by
  have h := lock_unlock_same_cycle 150 exLockUnlockEngine (by decide) (by decide)
  exact ⟨rfl, rfl, h.2.1, h.2.2.1, h.2.2.2.1, h.2.2.2.2⟩

end Performer
